import Mathlib

/-!
# varstored: lifecycle supervisor and I/O request dispatcher

A shallow embedding of `varstored.c`.  Calls into libxenctrl, xenstore, the
backend and the port handler are external: every call is recorded as an
`Event` of a trace, and what the call answers is read from an environment
record, so that each function of the source becomes a pure function of the
process state and of the environment.

Assertions are taken as live (the source defines no `NDEBUG`): a failed
`assert` ends the function with the outcome `aborted`, and at the level of
the process `abort` raises `SIGABRT` through the installed handler.

Loops that wait on the environment or on the shared ring run on a script of
answers or on fuel; the outcome `blocked` says that the script or the fuel
ended first.  Signals are delivered while `poll` blocks in the main loop.
-/

namespace Varstored

/-! ## Constants and types of the hypervisor headers -/

/-- Constants of `xen/hvm/ioreq.h` and the signedness of `evtchn_port_t`.
The header is not part of the sources, so its constants are parameters of
the embedding. -/
structure XenAbi where
  IOREQ_READ : Nat
  IOREQ_WRITE : Nat
  STATE_IOREQ_READY : Nat
  STATE_IOREQ_INPROCESS : Nat
  STATE_IORESP_READY : Nat
  IOREQ_TYPE_PIO : Nat
  IOREQ_TYPE_COPY : Nat
  IOREQ_TYPE_PCI_CONFIG : Nat
  IOREQ_TYPE_TIMEOFFSET : Nat
  IOREQ_TYPE_INVALIDATE : Nat
  IOREQ_BUFFER_SLOT_NUM : Nat
  evtchn_port_signed : Bool
  deriving DecidableEq, Repr

/-- The values the Xen public headers give the constants (`evtchn_port_t`
is `uint32_t` there); used for concrete runs only. -/
def xenPublicAbi : XenAbi :=
  { IOREQ_READ := 1, IOREQ_WRITE := 0,
    STATE_IOREQ_READY := 1, STATE_IOREQ_INPROCESS := 2, STATE_IORESP_READY := 3,
    IOREQ_TYPE_PIO := 0, IOREQ_TYPE_COPY := 1, IOREQ_TYPE_PCI_CONFIG := 2,
    IOREQ_TYPE_TIMEOFFSET := 7, IOREQ_TYPE_INVALIDATE := 8,
    IOREQ_BUFFER_SLOT_NUM := 511,
    evtchn_port_signed := false }

/-- Conversion of an `int` to `evtchn_port_t`. -/
def to_evtchn_port (abi : XenAbi) (v : Int) : Int :=
  if abi.evtchn_port_signed then v else v % 4294967296

/-! ## The phase counter `varstored_seq_t` -/

def VARSTORED_SEQ_UNINITIALIZED : Nat := 0
def VARSTORED_SEQ_INTERFACE_OPEN : Nat := 1
def VARSTORED_SEQ_SERVER_REGISTERED : Nat := 2
def VARSTORED_SEQ_SHARED_IOPAGE_MAPPED : Nat := 3
def VARSTORED_SEQ_BUFFERED_IOPAGE_MAPPED : Nat := 4
def VARSTORED_SEQ_SERVER_ENABLED : Nat := 5
def VARSTORED_SEQ_PORT_ARRAY_ALLOCATED : Nat := 6
def VARSTORED_SEQ_EVTCHN_OPEN : Nat := 7
def VARSTORED_SEQ_PORTS_BOUND : Nat := 8
def VARSTORED_SEQ_BUF_PORT_BOUND : Nat := 9
def VARSTORED_SEQ_PORT_INITIALIZED : Nat := 10
def VARSTORED_SEQ_WROTE_PID : Nat := 11
def VARSTORED_SEQ_INITIALIZED : Nat := 12
def VARSTORED_NR_SEQS : Nat := 13

/-- The fields of `struct varstored_state` that the code reads back.  The
handles `xch`, `xceh` and the two page pointers are only passed on to the
library; the pages' contents are modelled apart. -/
structure varstored_state_t where
  seq : Nat
  domid : Nat
  vcpus : Nat
  ioservid : Nat
  ioreq_local_port : List Int
  buf_ioreq_local_port : Int
  deriving DecidableEq, Repr

/-- The zero-initialised static `varstored_state`. -/
def varstored_state_zero : varstored_state_t :=
  { seq := VARSTORED_SEQ_UNINITIALIZED, domid := 0, vcpus := 0, ioservid := 0,
    ioreq_local_port := [], buf_ioreq_local_port := 0 }

/-- Answers of `db->init()`. -/
inductive backend_init_status where
  | BACKEND_INIT_FAILURE
  | BACKEND_INIT_SUCCESS
  | BACKEND_INIT_FIRSTBOOT
  deriving DecidableEq, Repr

/-- An I/O request `ioreq_t`, as far as the code reads or writes it. -/
structure ioreq_t where
  addr : Nat
  data : Nat
  count : Nat
  size : Nat
  vp_eport : Nat
  state : Nat
  data_is_ptr : Nat
  dir : Nat
  df : Nat
  type : Nat
  deriving DecidableEq, Repr

/-- A slot `buf_ioreq_t` of the buffered ring; `size` is the two-bit size
code of the structure. -/
structure buf_ioreq_t where
  type : Nat
  dir : Nat
  size : Fin 4
  addr : Nat
  data : Nat
  deriving DecidableEq, Repr

/-- The signals that `main` leaves unblocked. -/
inductive Signal where
  | SIGTERM
  | SIGINT
  | SIGHUP
  | SIGABRT
  | SIGUSR1
  deriving DecidableEq, Repr

/-- External calls, accesses to the shared pages and log lines, in the
order the process performs them.  A bind or unbind of an event channel names
the vCPU whose table entry it serves (`none` for the buffered port). -/
inductive Event where
  | xc_interface_open (ok : Bool)
  | xc_domain_getinfo (rc : Int)
  | xc_hvm_param_get (rc : Int) (number : Nat)
  | usleep
  | xc_hvm_create_ioreq_server (rc : Int)
  | xc_hvm_get_ioreq_server_info (rc : Int)
  | map_iopage (ok : Bool)
  | map_buffered_iopage (ok : Bool)
  | server_enable (rc : Int)
  | malloc_ports (ok : Bool)
  | xc_evtchn_open (ok : Bool)
  | xc_evtchn_bind_interdomain (vcpu : Option Nat) (remote : Nat) (rc : Int)
  | io_port_initialize (rc : Int)
  | xs_open (ok : Bool)
  | xs_close
  | backend_resume (ok : Bool)
  | backend_init (status : backend_init_status)
  | setup_variables (ok : Bool)
  | setup_keys (ok : Bool)
  | info_secure_boot (enabled : Bool)
  | info_auth_enforce (enforcing : Bool)
  | xs_write (ok : Bool)
  | seq_next (seq : Nat)
  | fail_from (label : Nat)
  | xs_rm_pid
  | io_port_deregister
  | xc_evtchn_unbind (vcpu : Option Nat) (port : Int)
  | xc_evtchn_close
  | free_ports
  | server_disable
  | munmap_buffered_iopage
  | munmap_iopage
  | xc_hvm_destroy_ioreq_server
  | xc_interface_close
  | io_port_write (addr size data : Nat)
  | read_ioreq_state (vcpu : Nat)
  | write_ioreq_state (vcpu : Nat) (state : Nat)
  | xc_evtchn_notify (port : Int)
  | xc_evtchn_pending (rc : Int)
  | xc_evtchn_unmask (port : Int)
  | read_pointers (read_pointer write_pointer : Nat)
  | read_slot (pointer slot : Nat)
  | write_read_pointer (read_pointer : Nat)
  | err_unknown_type (type : Nat)
  | signal_handler (num : Signal)
  | backend_save (ok : Bool)
  deriving DecidableEq, Repr

/-- How a function of the source ends: it returns a value (`returned 0`
for a `void` function), the process leaves through `exit`, an assertion
fails, the process dies of a signal, or the fuel or the environment's script
of answers ends while the function is still running (`blocked`). -/
inductive Outcome where
  | returned (rc : Int)
  | exited (code : Nat)
  | aborted
  | killed (num : Signal)
  | blocked
  deriving DecidableEq, Repr

/-! ## `varstored_seq_next` -/

/-- Source `varstored_seq_next`: `none` when an assertion fails, else the
state with `seq` advanced.  The log line of the phase entered is the event
`seq_next`. -/
def varstored_seq_next (st : varstored_state_t) : Option varstored_state_t :=
  if st.seq < VARSTORED_SEQ_INITIALIZED then
    let st1 := { st with seq := st.seq + 1 }
    if 1 ≤ st1.seq ∧ st1.seq ≤ VARSTORED_SEQ_INITIALIZED then some st1 else none
  else none

/-! ## `varstored_teardown` -/

/-- What the library calls of `varstored_teardown` answer. -/
structure TeardownEnv where
  xs_open_ok : Bool
  asprintf_ok : Bool
  deriving DecidableEq, Repr

/-- The loop of the `EVTCHN_OPEN` block: one `xc_evtchn_unbind` for every
table entry with `port >= 0`. -/
def teardown_unbind_ports (st : varstored_state_t) : List Event :=
  (List.range st.vcpus).filterMap fun i =>
    let port := st.ioreq_local_port.getD i 0
    if port ≥ 0 then some (Event.xc_evtchn_unbind (some i) port) else none

/-- The calls of the `WROTE_PID` block: the PID node is removed when the
store opens and the key can be built. -/
def teardown_pid_node (env : TeardownEnv) : List Event :=
  if env.xs_open_ok then
    [Event.xs_open true] ++ (if env.asprintf_ok then [Event.xs_rm_pid] else [])
      ++ [Event.xs_close]
  else [Event.xs_open false]

/-- One block of `varstored_teardown`,
`if (guard on seq) { calls; seq = next; }`: the state and the calls so far
go in, and come out changed when the guard holds. -/
def teardown_block (guard : Nat → Bool) (calls : varstored_state_t → List Event) (next : Nat)
    (p : varstored_state_t × List Event) : varstored_state_t × List Event :=
  if guard p.1.seq then ({ p.1 with seq := next }, p.2 ++ calls p.1) else p

/-- Source `varstored_teardown`: the blocks in source order, each with the
guard, the calls and the assignment to `seq` of the source.  Returns the
final state and the calls made. -/
def varstored_teardown (env : TeardownEnv) (st0 : varstored_state_t) :
    varstored_state_t × List Event :=
  (st0, [])
  |> teardown_block (fun seq => decide (seq = VARSTORED_SEQ_INITIALIZED))
      (fun _ => []) VARSTORED_SEQ_WROTE_PID
  |> teardown_block (fun seq => decide (seq ≥ VARSTORED_SEQ_WROTE_PID))
      (fun _ => teardown_pid_node env) VARSTORED_SEQ_PORT_INITIALIZED
  |> teardown_block (fun seq => decide (seq = VARSTORED_SEQ_PORT_INITIALIZED))
      (fun _ => [Event.io_port_deregister]) VARSTORED_SEQ_PORTS_BOUND
  |> teardown_block (fun seq => decide (seq ≥ VARSTORED_SEQ_PORTS_BOUND))
      (fun st => [Event.xc_evtchn_unbind none st.buf_ioreq_local_port])
      VARSTORED_SEQ_PORTS_BOUND
  |> teardown_block (fun seq => decide (seq ≥ VARSTORED_SEQ_PORTS_BOUND))
      (fun _ => []) VARSTORED_SEQ_EVTCHN_OPEN
  |> teardown_block (fun seq => decide (seq ≥ VARSTORED_SEQ_EVTCHN_OPEN))
      (fun st => teardown_unbind_ports st ++ [Event.xc_evtchn_close])
      VARSTORED_SEQ_PORT_ARRAY_ALLOCATED
  |> teardown_block (fun seq => decide (seq ≥ VARSTORED_SEQ_PORT_ARRAY_ALLOCATED))
      (fun _ => [Event.free_ports]) VARSTORED_SEQ_SERVER_ENABLED
  |> teardown_block (fun seq => decide (seq = VARSTORED_SEQ_SERVER_ENABLED))
      (fun _ => [Event.server_disable]) VARSTORED_SEQ_BUFFERED_IOPAGE_MAPPED
  |> teardown_block (fun seq => decide (seq ≥ VARSTORED_SEQ_BUFFERED_IOPAGE_MAPPED))
      (fun _ => [Event.munmap_buffered_iopage]) VARSTORED_SEQ_SHARED_IOPAGE_MAPPED
  |> teardown_block (fun seq => decide (seq ≥ VARSTORED_SEQ_SHARED_IOPAGE_MAPPED))
      (fun _ => [Event.munmap_iopage]) VARSTORED_SEQ_SERVER_REGISTERED
  |> teardown_block (fun seq => decide (seq ≥ VARSTORED_SEQ_SERVER_REGISTERED))
      (fun _ => [Event.xc_hvm_destroy_ioreq_server]) VARSTORED_SEQ_INTERFACE_OPEN
  |> teardown_block (fun seq => decide (seq ≥ VARSTORED_SEQ_INTERFACE_OPEN))
      (fun _ => [Event.xc_interface_close]) VARSTORED_SEQ_UNINITIALIZED

/-! ## `initialize_settings` and `xs_write_pid` -/

/-- The bytes of a string literal of the source. -/
def c_str (s : String) : List Nat := s.toList.map Char.toNat

/-- The C string a buffer holds: its bytes before the first NUL (the end of
the list stands for the terminating NUL that `xs_read` appends). -/
def cstr_of (buf : List Nat) : List Nat := buf.takeWhile (fun b => b ≠ 0)

/-- The libc `strcmp`: bytes compared as `unsigned char` up to the first
difference or the terminating NUL. -/
def strcmp : List Nat → List Nat → Int
  | [], [] => 0
  | [], b :: _ => -(b : Int)
  | a :: _, [] => (a : Int)
  | a :: as, b :: bs =>
    if a ≠ b then (a : Int) - (b : Int) else if a = 0 then 0 else strcmp as bs

/-- The globals `secure_boot_enable` and `auth_enforce`. -/
structure Settings where
  secure_boot_enable : Bool
  auth_enforce : Bool
  deriving DecidableEq, Repr

/-- Source `initialize_settings`; the arguments are what the two `xs_read`
calls return (`none` for NULL).  The events are the two log lines. -/
def initialize_settings (secureboot auth : Option (List Nat)) : Settings × List Event :=
  let secure_boot_enable : Bool :=
    match secureboot with
    | none => false
    | some s => decide (strcmp s (c_str "true") = 0)
  let auth_enforce : Bool :=
    match auth with
    | none => true
    | some s => decide (strcmp s (c_str "false") ≠ 0)
  ({ secure_boot_enable := secure_boot_enable, auth_enforce := auth_enforce },
    [Event.info_secure_boot secure_boot_enable, Event.info_auth_enforce auth_enforce])

/-- What the calls of `xs_write_pid` answer. -/
structure XsWritePidEnv where
  asprintf_pid_ok : Bool
  asprintf_key_ok : Bool
  xs_write_ok : Bool
  deriving DecidableEq, Repr

/-- Source `xs_write_pid`. -/
def xs_write_pid (env : XsWritePidEnv) : Bool × List Event :=
  if env.asprintf_pid_ok then
    if env.asprintf_key_ok then (env.xs_write_ok, [Event.xs_write env.xs_write_ok])
    else (false, [])
  else (false, [])

/-! ## `varstored_initialize` -/

/-- What the environment answers to the calls of `varstored_initialize`.
`param_get` lists the successive answers `(rc, number)` of
`xc_hvm_param_get`; `vp_eport i` is `iopage->vcpu_ioreq[i].vp_eport`;
`bind_rc i` is what `xc_evtchn_bind_interdomain` returns for vCPU `i`. -/
structure InitEnv where
  xc_interface_open_ok : Bool
  getinfo_rc : Int
  dominfo_domid : Nat
  dominfo_max_vcpu_id : Nat
  param_get : List (Int × Nat)
  create_ioreq_server_rc : Int
  ioservid : Nat
  get_ioreq_server_info_rc : Int
  buf_port : Nat
  map_iopage_ok : Bool
  map_buffered_iopage_ok : Bool
  set_ioreq_server_state_rc : Int
  malloc_ok : Bool
  xc_evtchn_open_ok : Bool
  vp_eport : Nat → Nat
  bind_rc : Nat → Int
  bind_buf_rc : Int
  io_port_initialize_rc : Int
  xs_open_ok : Bool
  secureboot : Option (List Nat)
  auth_enforce : Option (List Nat)
  opt_resume : Bool
  resume_ok : Bool
  backend_init : backend_init_status
  setup_variables_ok : Bool
  setup_keys_ok : Bool
  write_pid : XsWritePidEnv

/-- A run of a function of the source: final state, calls made, outcome. -/
structure Run where
  st : varstored_state_t
  trace : List Event
  out : Outcome
  deriving DecidableEq, Repr

/-- How the loop that waits for `HVM_PARAM_NR_IOREQ_SERVER_PAGES` ends. -/
inductive WaitResult where
  | ready
  | failed
  | waiting
  deriving DecidableEq, Repr

/-- The `do ... while (number == 0)` loop of `varstored_initialize`, run on
the successive answers of `xc_hvm_param_get`: `failed` is the `exit(1)`
branch, `waiting` means that every answer so far was zero. -/
def wait_for_ioreq_server : List (Int × Nat) → List Event × WaitResult
  | [] => ([], WaitResult.waiting)
  | (rc, number) :: rest =>
    if rc < 0 then ([Event.xc_hvm_param_get rc number], WaitResult.failed)
    else if number = 0 then
      let r := wait_for_ioreq_server rest
      (Event.xc_hvm_param_get rc number :: Event.usleep :: r.1, r.2)
    else ([Event.xc_hvm_param_get rc number], WaitResult.ready)

/-- The loop that binds one interdomain port per vCPU, from vCPU `i` on with
`n` vCPUs left: the table, the calls, and whether every bind succeeded
(`false` is the `goto fail10`). -/
def bind_vcpu_ports (abi : XenAbi) (env : InitEnv) :
    Nat → Nat → List Int → List Int × List Event × Bool
  | 0, _, table => (table, [], true)
  | n + 1, i, table =>
    let port := env.vp_eport i
    let rc := env.bind_rc i
    if rc < 0 then (table, [Event.xc_evtchn_bind_interdomain (some i) port rc], false)
    else
      let r := bind_vcpu_ports abi env n (i + 1) (table.set i (to_evtchn_port abi rc))
      (r.1, Event.xc_evtchn_bind_interdomain (some i) port rc :: r.2.1, r.2.2)

/-- The backend part of `varstored_initialize` (`db->resume()`, or
`db->init()`, `setup_variables()` and, on first boot, `setup_keys()`):
the calls and whether none of them sent the code to `fail13`. -/
def backend_start (env : InitEnv) : List Event × Bool :=
  if env.opt_resume then ([Event.backend_resume env.resume_ok], env.resume_ok)
  else if env.backend_init = backend_init_status.BACKEND_INIT_FAILURE then
    ([Event.backend_init env.backend_init], false)
  else if !env.setup_variables_ok then
    ([Event.backend_init env.backend_init, Event.setup_variables false], false)
  else if env.backend_init = backend_init_status.BACKEND_INIT_FIRSTBOOT then
    ([Event.backend_init env.backend_init, Event.setup_variables true,
      Event.setup_keys env.setup_keys_ok], env.setup_keys_ok)
  else ([Event.backend_init env.backend_init, Event.setup_variables true], true)

/-- The exit through label `fail<n>`: the labels fall through to
`return -1`. -/
def fail_exit (st : varstored_state_t) (trace : List Event) (label : Nat) : Run :=
  { st := st, trace := trace ++ [Event.fail_from label], out := Outcome.returned (-1) }

/-- A failed assertion. -/
def assert_exit (st : varstored_state_t) (trace : List Event) : Run :=
  { st := st, trace := trace, out := Outcome.aborted }

/-- Source `varstored_initialize`, statement by statement. -/
def varstored_initialize (abi : XenAbi) (env : InitEnv) (domid : Nat)
    (st0 : varstored_state_t) : Run :=
  let st := { st0 with domid := domid }
  let tr := [Event.xc_interface_open env.xc_interface_open_ok]
  if !env.xc_interface_open_ok then fail_exit st tr 1 else
  match varstored_seq_next st with
  | none => assert_exit st tr
  | some st =>
  let tr := tr ++ [Event.seq_next st.seq, Event.xc_domain_getinfo env.getinfo_rc]
  if env.getinfo_rc < 0 ∨ env.dominfo_domid ≠ st.domid then fail_exit st tr 2 else
  let st := { st with vcpus := (env.dominfo_max_vcpu_id + 1) % 4294967296 }
  let w := wait_for_ioreq_server env.param_get
  let tr := tr ++ w.1
  match w.2 with
  | WaitResult.failed => { st := st, trace := tr, out := Outcome.exited 1 }
  | WaitResult.waiting => { st := st, trace := tr, out := Outcome.blocked }
  | WaitResult.ready =>
  let tr := tr ++ [Event.xc_hvm_create_ioreq_server env.create_ioreq_server_rc]
  if env.create_ioreq_server_rc < 0 then fail_exit st tr 3 else
  let st := { st with ioservid := env.ioservid }
  match varstored_seq_next st with
  | none => assert_exit st tr
  | some st =>
  let tr := tr ++ [Event.seq_next st.seq,
    Event.xc_hvm_get_ioreq_server_info env.get_ioreq_server_info_rc]
  if env.get_ioreq_server_info_rc < 0 then fail_exit st tr 4 else
  let tr := tr ++ [Event.map_iopage env.map_iopage_ok]
  if !env.map_iopage_ok then fail_exit st tr 5 else
  match varstored_seq_next st with
  | none => assert_exit st tr
  | some st =>
  let tr := tr ++ [Event.seq_next st.seq, Event.map_buffered_iopage env.map_buffered_iopage_ok]
  if !env.map_buffered_iopage_ok then fail_exit st tr 6 else
  match varstored_seq_next st with
  | none => assert_exit st tr
  | some st =>
  let tr := tr ++ [Event.seq_next st.seq, Event.server_enable env.set_ioreq_server_state_rc]
  if env.set_ioreq_server_state_rc ≠ 0 then fail_exit st tr 7 else
  match varstored_seq_next st with
  | none => assert_exit st tr
  | some st =>
  let tr := tr ++ [Event.seq_next st.seq, Event.malloc_ports env.malloc_ok]
  if !env.malloc_ok then fail_exit st tr 8 else
  let st := { st with
    ioreq_local_port := List.replicate st.vcpus (to_evtchn_port abi (-1)) }
  match varstored_seq_next st with
  | none => assert_exit st tr
  | some st =>
  let tr := tr ++ [Event.seq_next st.seq, Event.xc_evtchn_open env.xc_evtchn_open_ok]
  if !env.xc_evtchn_open_ok then fail_exit st tr 9 else
  match varstored_seq_next st with
  | none => assert_exit st tr
  | some st =>
  let b := bind_vcpu_ports abi env st.vcpus 0 st.ioreq_local_port
  let st := { st with ioreq_local_port := b.1 }
  let tr := tr ++ [Event.seq_next st.seq] ++ b.2.1
  if !b.2.2 then fail_exit st tr 10 else
  match varstored_seq_next st with
  | none => assert_exit st tr
  | some st =>
  let tr := tr ++ [Event.seq_next st.seq,
    Event.xc_evtchn_bind_interdomain none env.buf_port env.bind_buf_rc]
  if env.bind_buf_rc < 0 then fail_exit st tr 11 else
  let st := { st with buf_ioreq_local_port := to_evtchn_port abi env.bind_buf_rc }
  match varstored_seq_next st with
  | none => assert_exit st tr
  | some st =>
  let tr := tr ++ [Event.seq_next st.seq, Event.io_port_initialize env.io_port_initialize_rc]
  if env.io_port_initialize_rc < 0 then fail_exit st tr 12 else
  match varstored_seq_next st with
  | none => assert_exit st tr
  | some st =>
  let tr := tr ++ [Event.seq_next st.seq, Event.xs_open env.xs_open_ok]
  if !env.xs_open_ok then fail_exit st tr 12 else
  let tr := tr ++ (initialize_settings env.secureboot env.auth_enforce).2
  let bk := backend_start env
  let tr := tr ++ bk.1
  if !bk.2 then fail_exit st (tr ++ [Event.xs_close]) 13 else
  let wp := xs_write_pid env.write_pid
  let tr := tr ++ wp.2
  if !wp.1 then fail_exit st (tr ++ [Event.xs_close]) 13 else
  let tr := tr ++ [Event.xs_close]
  match varstored_seq_next st with
  | none => assert_exit st tr
  | some st =>
  let tr := tr ++ [Event.seq_next st.seq]
  match varstored_seq_next st with
  | none => assert_exit st tr
  | some st =>
  let tr := tr ++ [Event.seq_next st.seq]
  if st.seq = VARSTORED_SEQ_INITIALIZED then
    { st := st, trace := tr, out := Outcome.returned 0 }
  else assert_exit st tr

/-! ## Request handling -/

/-- Source `handle_pio`: the calls made, or `none` when `assert(0)` is
reached. -/
def handle_pio (abi : XenAbi) (ioreq : ioreq_t) : Option (List Event) :=
  if ioreq.dir = abi.IOREQ_READ then some []
  else if ioreq.dir = abi.IOREQ_WRITE then
    if ioreq.data_is_ptr = 0 then
      some [Event.io_port_write ioreq.addr ioreq.size (ioreq.data % 4294967296)]
    else none
  else some []

/-- Source `handle_ioreq`: the `switch` on the request type. -/
def handle_ioreq (abi : XenAbi) (ioreq : ioreq_t) : Option (List Event) :=
  if ioreq.type = abi.IOREQ_TYPE_PIO then handle_pio abi ioreq
  else if ioreq.type = abi.IOREQ_TYPE_COPY then some []
  else if ioreq.type = abi.IOREQ_TYPE_PCI_CONFIG then some []
  else if ioreq.type = abi.IOREQ_TYPE_TIMEOFFSET then some []
  else if ioreq.type = abi.IOREQ_TYPE_INVALIDATE then some []
  else some [Event.err_unknown_type ioreq.type]

/-- A run of a function that works on the shared I/O page. -/
structure IopageRun where
  iopage : Nat → ioreq_t
  trace : List Event
  out : Outcome

/-- Source `varstored_poll_iopage`; `iopage i` is `iopage->vcpu_ioreq[i]`. -/
def varstored_poll_iopage (abi : XenAbi) (st : varstored_state_t)
    (iopage : Nat → ioreq_t) (i : Nat) : IopageRun :=
  if st.seq ≠ VARSTORED_SEQ_INITIALIZED then
    { iopage := iopage, trace := [], out := Outcome.returned 0 }
  else if (iopage i).state ≠ abi.STATE_IOREQ_READY then
    { iopage := iopage, trace := [Event.read_ioreq_state i], out := Outcome.returned 0 }
  else
    let iopage1 := Function.update iopage i
      { iopage i with state := abi.STATE_IOREQ_INPROCESS }
    let tr := [Event.read_ioreq_state i, Event.write_ioreq_state i abi.STATE_IOREQ_INPROCESS]
    match handle_ioreq abi (iopage1 i) with
    | none => { iopage := iopage1, trace := tr, out := Outcome.aborted }
    | some calls =>
      let iopage2 := Function.update iopage1 i
        { iopage1 i with state := abi.STATE_IORESP_READY }
      { iopage := iopage2,
        trace := tr ++ calls ++ [Event.write_ioreq_state i abi.STATE_IORESP_READY,
          Event.xc_evtchn_notify (st.ioreq_local_port.getD i 0)],
        out := Outcome.returned 0 }

/-- The buffered I/O page `buffered_iopage_t`; `buf_ioreq s` is slot `s`. -/
structure buffered_iopage_t where
  read_pointer : Nat
  write_pointer : Nat
  buf_ioreq : Nat → buf_ioreq_t

/-- The request the drain loop builds from the slot at `read_pointer`,
before a second half is merged in (`vp_eport` is left unset by the source
and never read). -/
def buf_ioreq_decode (abi : XenAbi) (b : buf_ioreq_t) : ioreq_t :=
  { size := 1 <<< b.size.val, count := 1, addr := b.addr, data := b.data,
    state := abi.STATE_IOREQ_READY, dir := b.dir, df := 1, type := b.type,
    data_is_ptr := 0, vp_eport := 0 }

/-- One turn of the body of `while (read_pointer != write_pointer)`, up to
the call of `handle_ioreq`: the new local `read_pointer`, the slots read and
the request handed on. -/
def drain_entry (abi : XenAbi) (page : buffered_iopage_t) (read_pointer : Nat) :
    Nat × List Event × ioreq_t :=
  let slot := read_pointer % abi.IOREQ_BUFFER_SLOT_NUM
  let ioreq := buf_ioreq_decode abi (page.buf_ioreq slot)
  let read_pointer1 := (read_pointer + 1) % 4294967296
  if ioreq.size = 8 then
    let slot2 := read_pointer1 % abi.IOREQ_BUFFER_SLOT_NUM
    let ioreq2 := { ioreq with data := ioreq.data ||| ((page.buf_ioreq slot2).data <<< 32) }
    ((read_pointer1 + 1) % 4294967296,
      [Event.read_slot read_pointer slot, Event.read_slot read_pointer1 slot2], ioreq2)
  else (read_pointer1, [Event.read_slot read_pointer slot], ioreq)

/-- A run of the drain loop: the local `read_pointer`, the requests handed
to `handle_ioreq` so far, the events, and the outcome (`blocked`: the fuel
ended with `read_pointer != write_pointer`). -/
structure DrainRun where
  read_pointer : Nat
  handled : List ioreq_t
  trace : List Event
  out : Outcome
  deriving DecidableEq, Repr

/-- The loop `while (read_pointer != write_pointer)` of
`varstored_poll_buffered_iopage`, with at most `fuel` turns. -/
def drain_loop (abi : XenAbi) (page : buffered_iopage_t) :
    Nat → Nat → Nat → DrainRun
  | 0, read_pointer, write_pointer =>
    if read_pointer = write_pointer then
      { read_pointer := read_pointer, handled := [], trace := [], out := Outcome.returned 0 }
    else
      { read_pointer := read_pointer, handled := [], trace := [], out := Outcome.blocked }
  | fuel + 1, read_pointer, write_pointer =>
    if read_pointer = write_pointer then
      { read_pointer := read_pointer, handled := [], trace := [], out := Outcome.returned 0 }
    else
      let e := drain_entry abi page read_pointer
      match handle_ioreq abi e.2.2 with
      | none => { read_pointer := e.1, handled := [e.2.2], trace := e.2.1,
                  out := Outcome.aborted }
      | some calls =>
        let r := drain_loop abi page fuel e.1 write_pointer
        { read_pointer := r.read_pointer, handled := e.2.2 :: r.handled,
          trace := e.2.1 ++ calls ++ r.trace, out := r.out }

/-- A run of a function that works on the buffered I/O page. -/
structure BufferedRun where
  page : buffered_iopage_t
  handled : List ioreq_t
  trace : List Event
  out : Outcome

/-- The loop `for (;;)` of `varstored_poll_buffered_iopage`, with at most
`passes` turns of at most `fuel` entries each.  The page changes through
the code's own write of `read_pointer` only. -/
def poll_buffered_passes (abi : XenAbi) (fuel : Nat) :
    Nat → buffered_iopage_t → BufferedRun
  | 0, page => { page := page, handled := [], trace := [], out := Outcome.blocked }
  | passes + 1, page =>
    let read_pointer := page.read_pointer
    let write_pointer := page.write_pointer
    let tr := [Event.read_pointers read_pointer write_pointer]
    if read_pointer = write_pointer then
      { page := page, handled := [], trace := tr, out := Outcome.returned 0 }
    else
      let d := drain_loop abi page fuel read_pointer write_pointer
      if d.out ≠ Outcome.returned 0 then
        { page := page, handled := d.handled, trace := tr ++ d.trace, out := d.out }
      else
        let page1 := { page with read_pointer := d.read_pointer }
        let r := poll_buffered_passes abi fuel passes page1
        { page := r.page, handled := d.handled ++ r.handled,
          trace := tr ++ d.trace ++ [Event.write_read_pointer d.read_pointer] ++ r.trace,
          out := r.out }

/-- Source `varstored_poll_buffered_iopage`. -/
def varstored_poll_buffered_iopage (abi : XenAbi) (st : varstored_state_t)
    (fuel passes : Nat) (page : buffered_iopage_t) : BufferedRun :=
  if st.seq ≠ VARSTORED_SEQ_INITIALIZED then
    { page := page, handled := [], trace := [], out := Outcome.returned 0 }
  else poll_buffered_passes abi fuel passes page

/-- The two pages shared with the hypervisor. -/
structure SharedPages where
  iopage : Nat → ioreq_t
  buffered : buffered_iopage_t

/-- A run of a function that works on both shared pages. -/
structure PagesRun where
  pages : SharedPages
  trace : List Event
  out : Outcome

/-- The loop over the vCPUs of `varstored_poll_iopages`, from vCPU `i` on
with `n` vCPUs left. -/
def poll_iopages_vcpus (abi : XenAbi) (st : varstored_state_t) (port : Int) :
    Nat → Nat → (Nat → ioreq_t) → IopageRun
  | 0, _, iopage => { iopage := iopage, trace := [], out := Outcome.returned 0 }
  | n + 1, i, iopage =>
    if port = st.ioreq_local_port.getD i 0 then
      let r := varstored_poll_iopage abi st iopage i
      if r.out ≠ Outcome.returned 0 then
        { iopage := r.iopage, trace := Event.xc_evtchn_unmask port :: r.trace, out := r.out }
      else
        let rest := poll_iopages_vcpus abi st port n (i + 1) r.iopage
        { iopage := rest.iopage,
          trace := Event.xc_evtchn_unmask port :: r.trace ++ rest.trace, out := rest.out }
    else poll_iopages_vcpus abi st port n (i + 1) iopage

/-- Source `varstored_poll_iopages`; `pending_rc` is what
`xc_evtchn_pending` returns. -/
def varstored_poll_iopages (abi : XenAbi) (st : varstored_state_t) (pending_rc : Int)
    (fuel passes : Nat) (pages : SharedPages) : PagesRun :=
  if st.seq ≠ VARSTORED_SEQ_INITIALIZED then
    { pages := pages, trace := [], out := Outcome.returned 0 }
  else
    let port := to_evtchn_port abi pending_rc
    let tr := [Event.xc_evtchn_pending pending_rc]
    if port < 0 then { pages := pages, trace := tr, out := Outcome.returned 0 }
    else if port = st.buf_ioreq_local_port then
      let r := varstored_poll_buffered_iopage abi st fuel passes pages.buffered
      { pages := { pages with buffered := r.page },
        trace := tr ++ [Event.xc_evtchn_unmask port] ++ r.trace, out := r.out }
    else
      let r := poll_iopages_vcpus abi st port st.vcpus 0 pages.iopage
      { pages := { pages with iopage := r.iopage }, trace := tr ++ r.trace, out := r.out }

/-! ## Signals and `main` -/

/-- What `sigaction` has installed for a signal: the default action or one
of the two `struct sigaction` of the source. -/
inductive Handler where
  | SIG_DFL
  | sigterm_handler
  | sigusr1_handler
  deriving DecidableEq, Repr

/-- The process: the static `varstored_state`, the flag `run_main_loop` and
the table of installed handlers. -/
structure Process where
  varstored_state : varstored_state_t
  run_main_loop : Int
  sigaction : Signal → Handler

/-- Source `varstored_sigterm`: teardown, then either the flag is cleared or
the process leaves through `exit(0)` (the outcome `some`). -/
def varstored_sigterm (tenv : TeardownEnv) (num : Signal) (p : Process) :
    Process × List Event × Option Outcome :=
  let t := varstored_teardown tenv p.varstored_state
  let p1 := { p with varstored_state := t.1 }
  let tr := Event.signal_handler num :: t.2
  if num = Signal.SIGTERM then ({ p1 with run_main_loop := 0 }, tr, none)
  else (p1, tr, some (Outcome.exited 0))

/-- Source `varstored_sigusr1`:
`sigaction(SIGHUP, &sigusr1_handler, NULL)`. -/
def varstored_sigusr1 (num : Signal) (p : Process) : Process × List Event :=
  ({ p with sigaction := Function.update p.sigaction Signal.SIGHUP Handler.sigusr1_handler },
    [Event.signal_handler num])

/-- Delivery of one signal: the installed handler runs; the default action
of each of the five signals ends the process. -/
def deliver_signal (tenv : TeardownEnv) (num : Signal) (p : Process) :
    Process × List Event × Option Outcome :=
  match p.sigaction num with
  | Handler.sigterm_handler => varstored_sigterm tenv num p
  | Handler.sigusr1_handler =>
    let r := varstored_sigusr1 num p
    (r.1, r.2, none)
  | Handler.SIG_DFL => (p, [], some (Outcome.killed num))

/-- Delivery of a sequence of signals, up to the first that ends the
process; each comes with the answers its teardown would get. -/
def deliver_signals : List (Signal × TeardownEnv) → Process →
    Process × List Event × Option Outcome
  | [], p => (p, [], none)
  | (num, tenv) :: rest, p =>
    let d := deliver_signal tenv num p
    match d.2.2 with
    | some out => (d.1, d.2.1, some out)
    | none =>
      let r := deliver_signals rest d.1
      (r.1, d.2.1 ++ r.2.1, r.2.2)

/-- A failed assertion calls `abort`, which raises `SIGABRT`: the installed
handler runs, and if it returns the process dies of the signal. -/
def raise_abort (tenv : TeardownEnv) (p : Process) : Process × List Event × Outcome :=
  let d := deliver_signal tenv Signal.SIGABRT p
  match d.2.2 with
  | some out => (d.1, d.2.1, out)
  | none => (d.1, d.2.1, Outcome.killed Signal.SIGABRT)

/-- One turn of the main loop as the environment shapes it: the signals
delivered while `poll` blocks, what `poll` returns (`rc`, whether `revents`
has `POLLIN`, whether `errno` is `EINTR`), and what
`varstored_poll_iopages` then finds (the pending port and the pages as the
hypervisor left them). -/
structure PollStep where
  signals : List (Signal × TeardownEnv)
  rc : Int
  pollin : Bool
  errno_eintr : Bool
  pending_rc : Int
  pages : SharedPages
  fuel : Nat
  passes : Nat
  abort_env : TeardownEnv

/-- The loop `while (run_main_loop)` of `main`.  The outcome `none` means
that the loop was left and `main` goes on to `db->save()`. -/
def main_loop (abi : XenAbi) : List PollStep → Process →
    Process × List Event × Option Outcome
  | [], p => if p.run_main_loop = 0 then (p, [], none) else (p, [], some Outcome.blocked)
  | s :: rest, p =>
    if p.run_main_loop = 0 then (p, [], none)
    else
      let d := deliver_signals s.signals p
      match d.2.2 with
      | some out => (d.1, d.2.1, some out)
      | none =>
        let p1 := d.1
        if p1.run_main_loop = 0 then (p1, d.2.1, none)
        else
          let io : PagesRun :=
            if s.rc > 0 ∧ s.pollin = true then
              varstored_poll_iopages abi p1.varstored_state s.pending_rc s.fuel s.passes s.pages
            else { pages := s.pages, trace := [], out := Outcome.returned 0 }
          match io.out with
          | Outcome.returned _ =>
            if s.rc < 0 ∧ s.errno_eintr = false then (p1, d.2.1 ++ io.trace, none)
            else
              let r := main_loop abi rest p1
              (r.1, d.2.1 ++ io.trace ++ r.2.1, r.2.2)
          | Outcome.aborted =>
            let a := raise_abort s.abort_env p1
            (a.1, d.2.1 ++ io.trace ++ a.2.1, some a.2.2)
          | out => (p1, d.2.1 ++ io.trace, some out)

/-- What `main` gets from its environment once the options are parsed. -/
structure MainEnv where
  init : InitEnv
  init_teardown : TeardownEnv
  steps : List PollStep
  save_ok : Bool

/-- A run of the process. -/
structure ProcessRun where
  proc : Process
  trace : List Event
  out : Outcome

/-- The handlers `main` installs before initialization. -/
def main_sigaction : Signal → Handler
  | Signal.SIGUSR1 => Handler.sigusr1_handler
  | _ => Handler.sigterm_handler

/-- Source `main` from the installation of the signal handlers on, for the
domain identifier `domid`: `returned rc` is `main` returning `rc`. -/
def main_run (abi : XenAbi) (env : MainEnv) (domid : Nat) : ProcessRun :=
  let p0 : Process :=
    { varstored_state := varstored_state_zero, run_main_loop := 1,
      sigaction := main_sigaction }
  let r := varstored_initialize abi env.init domid p0.varstored_state
  let p1 := { p0 with varstored_state := r.st }
  match r.out with
  | Outcome.returned rc =>
    if rc < 0 then
      let t := varstored_teardown env.init_teardown p1.varstored_state
      { proc := { p1 with varstored_state := t.1 }, trace := r.trace ++ t.2,
        out := Outcome.exited 1 }
    else
      let l := main_loop abi env.steps p1
      match l.2.2 with
      | some out => { proc := l.1, trace := r.trace ++ l.2.1, out := out }
      | none =>
        { proc := l.1, trace := r.trace ++ l.2.1 ++ [Event.backend_save env.save_ok],
          out := if env.save_ok then Outcome.returned 0 else Outcome.returned 1 }
  | Outcome.aborted =>
    let a := raise_abort env.init_teardown p1
    { proc := a.1, trace := r.trace ++ a.2.1, out := a.2.2 }
  | out => { proc := p1, trace := r.trace, out := out }

/-- The exit status of the process, when it ends by `exit` or by `main`
returning. -/
def exit_code : Outcome → Option Int
  | Outcome.returned rc => some rc
  | Outcome.exited code => some (code : Int)
  | _ => none

/-! ## Resources, for the statements about the lifecycle -/

/-- What the forward steps of initialization acquire and teardown gives
back. -/
inductive Resource where
  | interface
  | ioreq_server
  | shared_iopage
  | buffered_iopage
  | server_enabled
  | port_table
  | evtchn_handle
  | vcpu_port (vcpu : Nat) (port : Int)
  | buf_port (port : Int)
  | pio_trap
  | pid_node
  deriving DecidableEq, Repr

/-- The resource a call acquired, when it is an acquire that succeeded. -/
def acquired_by (abi : XenAbi) : Event → Option Resource
  | Event.xc_interface_open true => some Resource.interface
  | Event.xc_hvm_create_ioreq_server rc => if rc < 0 then none else some Resource.ioreq_server
  | Event.map_iopage true => some Resource.shared_iopage
  | Event.map_buffered_iopage true => some Resource.buffered_iopage
  | Event.server_enable rc => if rc = 0 then some Resource.server_enabled else none
  | Event.malloc_ports true => some Resource.port_table
  | Event.xc_evtchn_open true => some Resource.evtchn_handle
  | Event.xc_evtchn_bind_interdomain (some i) _ rc =>
    if rc < 0 then none else some (Resource.vcpu_port i (to_evtchn_port abi rc))
  | Event.xc_evtchn_bind_interdomain none _ rc =>
    if rc < 0 then none else some (Resource.buf_port (to_evtchn_port abi rc))
  | Event.io_port_initialize rc => if rc < 0 then none else some Resource.pio_trap
  | Event.xs_write true => some Resource.pid_node
  | _ => none

/-- The resource a call releases, when it is a release. -/
def released_by : Event → Option Resource
  | Event.xs_rm_pid => some Resource.pid_node
  | Event.io_port_deregister => some Resource.pio_trap
  | Event.xc_evtchn_unbind none port => some (Resource.buf_port port)
  | Event.xc_evtchn_unbind (some i) port => some (Resource.vcpu_port i port)
  | Event.xc_evtchn_close => some Resource.evtchn_handle
  | Event.free_ports => some Resource.port_table
  | Event.server_disable => some Resource.server_enabled
  | Event.munmap_buffered_iopage => some Resource.buffered_iopage
  | Event.munmap_iopage => some Resource.shared_iopage
  | Event.xc_hvm_destroy_ioreq_server => some Resource.ioreq_server
  | Event.xc_interface_close => some Resource.interface
  | _ => none

/-- The resources a trace acquired, in order. -/
def acquire_log (abi : XenAbi) (trace : List Event) : List Resource :=
  trace.filterMap (acquired_by abi)

/-- The resources a trace released, in order. -/
def release_log (trace : List Event) : List Resource :=
  trace.filterMap released_by

/-- The phases a trace entered through `varstored_seq_next`, in order. -/
def phases_entered (trace : List Event) : List Nat :=
  trace.filterMap fun e =>
    match e with
    | Event.seq_next seq => some seq
    | _ => none

/-- An environment in which every step of initialization succeeds, for a
guest with two vCPUs. -/
def env_all_ok : InitEnv :=
  { xc_interface_open_ok := true, getinfo_rc := 1, dominfo_domid := 7,
    dominfo_max_vcpu_id := 1, param_get := [(0, 0), (0, 2)],
    create_ioreq_server_rc := 0, ioservid := 3, get_ioreq_server_info_rc := 0,
    buf_port := 40, map_iopage_ok := true, map_buffered_iopage_ok := true,
    set_ioreq_server_state_rc := 0, malloc_ok := true, xc_evtchn_open_ok := true,
    vp_eport := fun i => 20 + i, bind_rc := fun i => 50 + (i : Int), bind_buf_rc := 60,
    io_port_initialize_rc := 0, xs_open_ok := true, secureboot := none,
    auth_enforce := none, opt_resume := false, resume_ok := true,
    backend_init := backend_init_status.BACKEND_INIT_SUCCESS,
    setup_variables_ok := true, setup_keys_ok := true, write_pid := ⟨true, true, true⟩ }

/-- The environment `env_all_ok`, except that the bind of the buffered port
fails (the exit through `fail11`). -/
def env_fail11 : InitEnv := { env_all_ok with bind_buf_rc := -1 }

/-- The environment `env_all_ok`, except that the first
`xc_hvm_param_get` fails. -/
def env_param_get_fails : InitEnv := { env_all_ok with param_get := [(-1, 0)] }

/-- Teardown answers: the store opens and the key is built. -/
def tenv_ok : TeardownEnv := { xs_open_ok := true, asprintf_ok := true }

/-- What `main` gets when the first `xc_hvm_param_get` fails. -/
def menv_param_get_fails : MainEnv :=
  { init := env_param_get_fails, init_teardown := tenv_ok, steps := [], save_ok := true }

/-! ## Values for the statements about request handling -/

/-- The ports a trace notifies, in order. -/
def notifications (trace : List Event) : List Int :=
  trace.filterMap fun e =>
    match e with
    | Event.xc_evtchn_notify port => some port
    | _ => none

/-- Whether an event is a call of `io_port_write`. -/
def is_io_port_write : Event → Bool
  | Event.io_port_write _ _ _ => true
  | _ => false

/-- The state after an initialization that succeeded in `env_all_ok`. -/
def st_initialized : varstored_state_t :=
  { seq := VARSTORED_SEQ_INITIALIZED, domid := 7, vcpus := 2, ioservid := 3,
    ioreq_local_port := [50, 51], buf_ioreq_local_port := 60 }

/-- A ready port write of four bytes whose data is passed by value. -/
def ioreq_pio_write : ioreq_t :=
  { addr := 256, data := 4660, count := 1, size := 4, vp_eport := 20, state := 1,
    data_is_ptr := 0, dir := 0, df := 0, type := 0 }

/-- A ready port write whose `data_is_ptr` is set. -/
def ioreq_pio_write_by_pointer : ioreq_t := { ioreq_pio_write with data_is_ptr := 1 }

/-- The requests that send `handle_ioreq` to the `assert(0)` of
`handle_pio`: port writes whose `data_is_ptr` is set. -/
abbrev pio_write_by_pointer (abi : XenAbi) (r : ioreq_t) : Prop :=
  r.type = abi.IOREQ_TYPE_PIO ∧ r.dir ≠ abi.IOREQ_READ ∧ r.dir = abi.IOREQ_WRITE
    ∧ r.data_is_ptr ≠ 0

/-! ## The reference decoding of the buffered ring -/

/-- The entry that starts in slot `first`, as the claim words it: size
`2 ^ (size code)`, count 1, `data_is_ptr` 0, and for a pair the data of the
second slot in the high 32 bits.  The other fields are those of the slot
(and the constants the drain loop fills in). -/
def spec_ring_entry (abi : XenAbi) (first : buf_ioreq_t) (second : Option buf_ioreq_t) :
    ioreq_t :=
  { size := 2 ^ first.size.val, count := 1, data_is_ptr := 0,
    addr := first.addr, dir := first.dir, type := first.type,
    data := match second with
      | none => first.data
      | some s => first.data ||| (s.data <<< 32),
    state := abi.STATE_IOREQ_READY, df := 1, vp_eport := 0 }

/-- The entries of the `n` slots from pointer `p` on, in FIFO order; `none`
when an entry of size 8 lacks its second half among them. -/
def spec_ring_entries (abi : XenAbi) (page : buffered_iopage_t) :
    Nat → Nat → Option (List ioreq_t)
  | 0, _ => some []
  | 1, p =>
    let first := page.buf_ioreq (p % abi.IOREQ_BUFFER_SLOT_NUM)
    if 2 ^ first.size.val = 8 then none else some [spec_ring_entry abi first none]
  | n + 2, p =>
    let first := page.buf_ioreq (p % abi.IOREQ_BUFFER_SLOT_NUM)
    if 2 ^ first.size.val = 8 then
      let second := page.buf_ioreq (((p + 1) % 4294967296) % abi.IOREQ_BUFFER_SLOT_NUM)
      (spec_ring_entries abi page n ((p + 2) % 4294967296)).map
        fun rest => spec_ring_entry abi first (some second) :: rest
    else
      (spec_ring_entries abi page (n + 1) ((p + 1) % 4294967296)).map
        fun rest => spec_ring_entry abi first none :: rest

/-- The number of slots from pointer `p` up to pointer `q`, in wrap-around
order of 32-bit pointers. -/
def ring_distance (p q : Nat) : Nat := (q + 4294967296 - p) % 4294967296

/-- Whether an event is the read of a ring slot. -/
def is_read_slot : Event → Bool
  | Event.read_slot _ _ => true
  | _ => false

/-- The calls made by handling the given requests one after the other. -/
def io_calls (abi : XenAbi) (entries : List ioreq_t) : List Event :=
  entries.flatMap fun e => (handle_ioreq abi e).getD []

/-- A slot that holds a port write of `2 ^ code` bytes. -/
def slot_write (code : Fin 4) (addr data : Nat) : buf_ioreq_t :=
  { type := 0, dir := 0, size := code, addr := addr, data := data }

/-- A ring whose only published slot (pointer 0) starts an entry of size 8:
its second half lies at the write pointer. -/
def page_half_pair : buffered_iopage_t :=
  { read_pointer := 0, write_pointer := 1, buf_ioreq := fun _ => slot_write 3 256 1 }

/-- A ring with three published slots: a four-byte write, then an
eight-byte write in two slots. -/
def page_three_slots : buffered_iopage_t :=
  { read_pointer := 4294967295, write_pointer := 2,
    buf_ioreq := fun s =>
      if s = 4294967295 % 511 then slot_write 2 256 7
      else if s = 0 then slot_write 3 260 1
      else slot_write 0 264 2 }

/-- The events of the drain loop: reads of ring slots and what
`handle_ioreq` does. -/
def is_drain_event : Event → Bool
  | Event.read_slot _ _ => true
  | Event.io_port_write _ _ _ => true
  | Event.err_unknown_type _ => true
  | _ => false

/-! ## Values and predicates for the statements about the process -/

/-- What `db->save()` answered, for every call of it in a trace. -/
def saves (trace : List Event) : List Bool :=
  trace.filterMap fun e =>
    match e with
    | Event.backend_save ok => some ok
    | _ => none

/-- The signals for which a handler ran, in order. -/
def signals_handled (trace : List Event) : List Signal :=
  trace.filterMap fun e =>
    match e with
    | Event.signal_handler num => some num
    | _ => none

/-- Whether the resource of a phase is in an acquire log: the phases
`INTERFACE_OPEN` (1) to `WROTE_PID` (11), each with what its step acquires;
the resource of `PORTS_BOUND` is one bound port for every vCPU, on the open
event-channel interface. -/
def phase_acquired (vcpus : Nat) (log : List Resource) (phase : Nat) : Prop :=
  if phase = VARSTORED_SEQ_INTERFACE_OPEN then Resource.interface ∈ log
  else if phase = VARSTORED_SEQ_SERVER_REGISTERED then Resource.ioreq_server ∈ log
  else if phase = VARSTORED_SEQ_SHARED_IOPAGE_MAPPED then Resource.shared_iopage ∈ log
  else if phase = VARSTORED_SEQ_BUFFERED_IOPAGE_MAPPED then Resource.buffered_iopage ∈ log
  else if phase = VARSTORED_SEQ_SERVER_ENABLED then Resource.server_enabled ∈ log
  else if phase = VARSTORED_SEQ_PORT_ARRAY_ALLOCATED then Resource.port_table ∈ log
  else if phase = VARSTORED_SEQ_EVTCHN_OPEN then Resource.evtchn_handle ∈ log
  else if phase = VARSTORED_SEQ_PORTS_BOUND then
    Resource.evtchn_handle ∈ log ∧ ∀ i, i < vcpus → ∃ port, Resource.vcpu_port i port ∈ log
  else if phase = VARSTORED_SEQ_BUF_PORT_BOUND then ∃ port, Resource.buf_port port ∈ log
  else if phase = VARSTORED_SEQ_PORT_INITIALIZED then Resource.pio_trap ∈ log
  else if phase = VARSTORED_SEQ_WROTE_PID then Resource.pid_node ∈ log
  else False

/-- The number of vCPUs, from vCPU `i` on with `n` left, whose bind
succeeds before the first that fails. -/
def bind_success_count (env : InitEnv) : Nat → Nat → Nat
  | 0, _ => 0
  | n + 1, i => if env.bind_rc i < 0 then 0 else bind_success_count env n (i + 1) + 1

/-- The process right after an initialization that succeeded, with the
handlers that `main` installed. -/
def proc_initialized : Process :=
  { varstored_state := st_initialized, run_main_loop := 1, sigaction := main_sigaction }

/-- A turn of the main loop in which `poll` is interrupted by the given
signals. -/
def step_signals (signals : List Signal) : PollStep :=
  { signals := signals.map fun num => (num, tenv_ok), rc := -1, pollin := false,
    errno_eintr := true, pending_rc := 0,
    pages := { iopage := fun _ => ioreq_pio_write,
               buffered := { read_pointer := 0, write_pointer := 0,
                             buf_ioreq := fun _ => slot_write 0 0 0 } },
    fuel := 0, passes := 0, abort_env := tenv_ok }

/-- What `main` gets in a run that initializes and then receives the given
signals during its first `poll`. -/
def menv_signals (signals : List Signal) (save_ok : Bool) : MainEnv :=
  { init := env_all_ok, init_teardown := tenv_ok, steps := [step_signals signals],
    save_ok := save_ok }

/-- The invariant of `varstored_initialize` on the phase counter. -/
def run_counter_ok (r : Run) : Prop :=
  r.out ≠ Outcome.aborted
  ∧ phases_entered r.trace = List.range' 1 r.st.seq
  ∧ (r.out = Outcome.returned 0 ↔ r.st.seq = VARSTORED_SEQ_INITIALIZED)
  ∧ (∀ rc, r.out = Outcome.returned rc → rc = 0 ∨ rc = -1)
  ∧ (∀ code, r.out = Outcome.exited code → code = 1)
  ∧ (∀ num, r.out ≠ Outcome.killed num)
  ∧ saves r.trace = []
  ∧ signals_handled r.trace = []

/-- On a failing return, the phases whose resource was acquired are those
up to `seq`. -/
def run_acquired_ok (abi : XenAbi) (r : Run) : Prop :=
  r.out = Outcome.returned (-1) → ∀ phase, 1 ≤ phase → phase ≤ VARSTORED_SEQ_WROTE_PID →
    (phase_acquired r.st.vcpus (acquire_log abi r.trace) phase ↔ phase ≤ r.st.seq)

/-- Library `isspace` in the C locale: space and the controls 9..13. -/
def c_isspace (b : Nat) : Bool :=
  decide (b = 32) || (decide (9 ≤ b) && decide (b ≤ 13))

/-- The value of a byte as a digit of bases up to 16, as library `strtol`
reads it. -/
def c_digit_value (b : Nat) : Option Nat :=
  if 48 ≤ b ∧ b ≤ 57 then some (b - 48)
  else if 97 ≤ b ∧ b ≤ 102 then some (b - 87)
  else if 65 ≤ b ∧ b ≤ 70 then some (b - 55)
  else none

/-- Whether a byte is a digit of `base`. -/
def c_is_digit (base : Nat) (b : Nat) : Bool :=
  match c_digit_value b with
  | some d => decide (d < base)
  | none => false

/-- `LONG_MAX` of a 64-bit `long`. -/
def LONG_MAX : Int := 9223372036854775807

/-- `LONG_MIN` of a 64-bit `long`. -/
def LONG_MIN : Int := -9223372036854775808

/-- The digit loop of `strtol`: the magnitude read so far, the unread rest
and whether a digit was read. -/
def strtol_digits (base : Nat) : List Nat → Nat → Bool → Nat × List Nat × Bool
  | [], acc, any => (acc, [], any)
  | b :: rest, acc, any =>
    match c_digit_value b with
    | some d =>
      if d < base then strtol_digits base rest (acc * base + d) true
      else (acc, b :: rest, any)
    | none => (acc, b :: rest, any)

/-- Library `strtol(nptr, &end, 0)` on the bytes of a C string (without the
terminator): the value returned and the rest of the string `end` points at.
White space is skipped, a sign is read, a `0x` or `0X` before a hexadecimal
digit selects base 16, another leading `0` base 8, anything else base 10;
without a digit the value is 0 and `end` is `nptr`; a magnitude out of the
range of `long` gives `LONG_MAX` or `LONG_MIN`. -/
def strtol (nptr : List Nat) : Int × List Nat :=
  let s1 := nptr.dropWhile c_isspace
  let signed : Bool × List Nat :=
    match s1 with
    | 45 :: t => (true, t)
    | 43 :: t => (false, t)
    | _ => (false, s1)
  let based : Nat × List Nat :=
    match signed.2 with
    | 48 :: x :: d :: t =>
      if (x = 120 ∨ x = 88) ∧ c_is_digit 16 d = true then (16, d :: t)
      else (8, signed.2)
    | 48 :: _ => (8, signed.2)
    | _ => (10, signed.2)
  let r := strtol_digits based.1 based.2 0 false
  if r.2.2 then
    if signed.1 then (max (-(r.1 : Int)) LONG_MIN, r.2.1)
    else (min (r.1 : Int) LONG_MAX, r.2.1)
  else (0, nptr)

/-- The cast `(domid_t)` of a `long`, for a `domid_t` that is an unsigned
integer of `domid_bits` bits. -/
def to_domid (domid_bits : Nat) (v : Int) : Nat :=
  (v % (2 ^ domid_bits : Int)).toNat

/-- What the option loop of `main` leaves behind: the argument of
`--domain` if given, whether a backend was selected, and the answer of the
backend's `check_args`. -/
structure Options where
  domain_str : Option (List Nat)
  db_set : Bool
  check_args_ok : Bool

/-- The two statements of `main` that read the domain argument: the domain
identifier `main` goes on with, or `none` when `*end` is not the terminator
and `main` prints "invalid domain" and calls `exit(1)`. -/
def main_domid (domid_bits : Nat) (domain_str : List Nat) : Option Nat :=
  let r := strtol domain_str
  let domid := to_domid domid_bits r.1
  if r.2.headD 0 ≠ 0 then none else some domid

/-- The process before `main` has installed a handler. -/
def process_start : Process :=
  { varstored_state := varstored_state_zero, run_main_loop := 1,
    sigaction := fun _ => Handler.SIG_DFL }

/-- Source `main` from the end of the option loop on: `usage()` ends the
process with `exit(2)`, an invalid domain with `exit(1)`, and otherwise
`main` goes on as `main_run` with the domain identifier read. -/
def main_from_options (abi : XenAbi) (domid_bits : Nat) (opts : Options) (env : MainEnv) :
    ProcessRun :=
  match opts.domain_str with
  | none => { proc := process_start, trace := [], out := Outcome.exited 2 }
  | some domain_str =>
    if !opts.db_set || !opts.check_args_ok then
      { proc := process_start, trace := [], out := Outcome.exited 2 }
    else
      match main_domid domid_bits domain_str with
      | none => { proc := process_start, trace := [], out := Outcome.exited 1 }
      | some domid => main_run abi env domid

/-- An environment in which the domain `domid` exists and every call works,
as in `env_all_ok`; no request and no signal arrives, so the process stays
in its main loop. -/
def menv_domain (domid : Nat) : MainEnv :=
  { init := { env_all_ok with dominfo_domid := domid }, init_teardown := tenv_ok,
    steps := [], save_ok := true }
/-! ## Partial binding, and the history of `seq` in teardown -/

/-- The `xc_evtchn_unbind` calls of a trace, in order: the table entry
(`none` for the buffered port) and the port passed. -/
def unbind_calls (t : List Event) : List (Option Nat × Int) :=
  t.filterMap fun e =>
    match e with
    | Event.xc_evtchn_unbind vcpu port => some (vcpu, port)
    | _ => none

/-- A domain of three vCPUs where every step before the binding of the
ports works, the port of vCPU 0 is bound as local port 50, and the binding
fails for vCPU 1. -/
def env_bind_fails_at_vcpu1 : InitEnv :=
  { env_all_ok with
    dominfo_max_vcpu_id := 2,
    bind_rc := fun i => if i = 0 then 50 else -1 }

/-- The public ABI read with a signed `evtchn_port_t`. -/
def xenSignedPortAbi : XenAbi := { xenPublicAbi with evtchn_port_signed := true }

/-- The blocks of `varstored_teardown`, one per `if` of the source, in
source order. -/
def teardown_blocks (env : TeardownEnv) :
    List (varstored_state_t × List Event → varstored_state_t × List Event) :=
  [ teardown_block (fun seq => decide (seq = VARSTORED_SEQ_INITIALIZED))
      (fun _ => []) VARSTORED_SEQ_WROTE_PID,
    teardown_block (fun seq => decide (seq ≥ VARSTORED_SEQ_WROTE_PID))
      (fun _ => teardown_pid_node env) VARSTORED_SEQ_PORT_INITIALIZED,
    teardown_block (fun seq => decide (seq = VARSTORED_SEQ_PORT_INITIALIZED))
      (fun _ => [Event.io_port_deregister]) VARSTORED_SEQ_PORTS_BOUND,
    teardown_block (fun seq => decide (seq ≥ VARSTORED_SEQ_PORTS_BOUND))
      (fun st => [Event.xc_evtchn_unbind none st.buf_ioreq_local_port])
      VARSTORED_SEQ_PORTS_BOUND,
    teardown_block (fun seq => decide (seq ≥ VARSTORED_SEQ_PORTS_BOUND))
      (fun _ => []) VARSTORED_SEQ_EVTCHN_OPEN,
    teardown_block (fun seq => decide (seq ≥ VARSTORED_SEQ_EVTCHN_OPEN))
      (fun st => teardown_unbind_ports st ++ [Event.xc_evtchn_close])
      VARSTORED_SEQ_PORT_ARRAY_ALLOCATED,
    teardown_block (fun seq => decide (seq ≥ VARSTORED_SEQ_PORT_ARRAY_ALLOCATED))
      (fun _ => [Event.free_ports]) VARSTORED_SEQ_SERVER_ENABLED,
    teardown_block (fun seq => decide (seq = VARSTORED_SEQ_SERVER_ENABLED))
      (fun _ => [Event.server_disable]) VARSTORED_SEQ_BUFFERED_IOPAGE_MAPPED,
    teardown_block (fun seq => decide (seq ≥ VARSTORED_SEQ_BUFFERED_IOPAGE_MAPPED))
      (fun _ => [Event.munmap_buffered_iopage]) VARSTORED_SEQ_SHARED_IOPAGE_MAPPED,
    teardown_block (fun seq => decide (seq ≥ VARSTORED_SEQ_SHARED_IOPAGE_MAPPED))
      (fun _ => [Event.munmap_iopage]) VARSTORED_SEQ_SERVER_REGISTERED,
    teardown_block (fun seq => decide (seq ≥ VARSTORED_SEQ_SERVER_REGISTERED))
      (fun _ => [Event.xc_hvm_destroy_ioreq_server]) VARSTORED_SEQ_INTERFACE_OPEN,
    teardown_block (fun seq => decide (seq ≥ VARSTORED_SEQ_INTERFACE_OPEN))
      (fun _ => [Event.xc_interface_close]) VARSTORED_SEQ_UNINITIALIZED ]

/-- The values of `seq` during `varstored_teardown`: at entry and after
each block. -/
def teardown_seq_history (env : TeardownEnv) (st : varstored_state_t) : List Nat :=
  ((teardown_blocks env).scanl (fun p b => b p) (st, [])).map fun p => p.1.seq

/-- What `main` gets in a run that initializes and then, at its first
`poll`, finds the slot of vCPU 0 ready with a port write passed by pointer,
for which `handle_pio` fails its assertion. -/
def menv_assert_fails : MainEnv :=
  { init := env_all_ok, init_teardown := tenv_ok,
    steps := [{ step_signals [] with
                rc := 1, pollin := true, pending_rc := 50,
                pages := { iopage := fun _ => ioreq_pio_write_by_pointer,
                           buffered := { read_pointer := 0, write_pointer := 0,
                                         buf_ioreq := fun _ => slot_write 0 0 0 } } }],
    save_ok := true }

/-! # Theorems -/

/-! ## C1, C2: initialization and teardown at their exits -/

/-- C1 (fails on the code): when the bind of the buffered port fails,
`varstored_initialize` leaves through `fail11` in phase `PORTS_BOUND` with
the two vCPU ports as the last resources acquired, and the teardown that
follows first unbinds the buffered port (the zero of the static state), a
resource that no step acquired. -/
theorem teardown_after_fail11_unbinds_unbound_buf_port :
    ( varstored_initialize xenPublicAbi env_fail11 7 varstored_state_zero).out
      = Outcome.returned (-1)
    ∧ ( varstored_initialize xenPublicAbi env_fail11 7 varstored_state_zero).st.seq
      = VARSTORED_SEQ_PORTS_BOUND
    ∧ acquire_log xenPublicAbi
        ( varstored_initialize xenPublicAbi env_fail11 7 varstored_state_zero).trace
      = [Resource.interface, Resource.ioreq_server, Resource.shared_iopage,
         Resource.buffered_iopage, Resource.server_enabled, Resource.port_table,
         Resource.evtchn_handle, Resource.vcpu_port 0 50, Resource.vcpu_port 1 51]
    ∧ release_log (varstored_teardown tenv_ok
        ( varstored_initialize xenPublicAbi env_fail11 7 varstored_state_zero).st).2
      = [Resource.buf_port 0, Resource.vcpu_port 0 50, Resource.vcpu_port 1 51,
         Resource.evtchn_handle, Resource.port_table, Resource.server_enabled,
         Resource.buffered_iopage, Resource.shared_iopage, Resource.ioreq_server,
         Resource.interface] := by
  decide

/-- C2 (fails on the code): when `xc_hvm_param_get` fails, the process
leaves through `exit(1)` inside `varstored_initialize`: the control
interface is open, the phase is `INTERFACE_OPEN`, and the trace ends with
the failed call, with no call of teardown (which would have closed the
interface). -/
theorem param_get_failure_exits_without_teardown :
    (main_run xenPublicAbi menv_param_get_fails 7).out = Outcome.exited 1
    ∧ (main_run xenPublicAbi menv_param_get_fails 7).trace
      = [Event.xc_interface_open true, Event.seq_next 1, Event.xc_domain_getinfo 1,
         Event.xc_hvm_param_get (-1) 0]
    ∧ (main_run xenPublicAbi menv_param_get_fails 7).proc.varstored_state.seq
      = VARSTORED_SEQ_INTERFACE_OPEN
    ∧ release_log (main_run xenPublicAbi menv_param_get_fails 7).trace = []
    ∧ release_log (varstored_teardown tenv_ok
        (main_run xenPublicAbi menv_param_get_fails 7).proc.varstored_state).2
      = [Resource.interface] := by
  decide

/-! ## C6: the request filter -/

theorem handle_pio_eq_none_iff (abi : XenAbi) (r : ioreq_t) :
    handle_pio abi r = none ↔
      r.dir ≠ abi.IOREQ_READ ∧ r.dir = abi.IOREQ_WRITE ∧ r.data_is_ptr ≠ 0 := by
  unfold handle_pio
  split_ifs <;> simp_all

theorem handle_ioreq_eq_none_iff (abi : XenAbi) (r : ioreq_t) :
    handle_ioreq abi r = none ↔
      r.type = abi.IOREQ_TYPE_PIO ∧ r.dir ≠ abi.IOREQ_READ ∧ r.dir = abi.IOREQ_WRITE
        ∧ r.data_is_ptr ≠ 0 := by
  unfold handle_ioreq
  split_ifs <;> simp_all [handle_pio_eq_none_iff]

theorem notifications_handle_ioreq (abi : XenAbi) (r : ioreq_t) (calls : List Event)
    (h : handle_ioreq abi r = some calls) : notifications calls = [] := by
  unfold handle_ioreq handle_pio at h
  split_ifs at h <;> simp at h <;> subst h <;> simp [notifications]

/-- C6 (counterexample): for a port write with `data_is_ptr` set,
`handle_ioreq` does not return: it reaches `assert(0)`. -/
theorem handle_ioreq_asserts_on_pio_write_by_pointer :
    handle_ioreq xenPublicAbi ioreq_pio_write_by_pointer = none := by
  decide

/-- C6 (amended): `handle_ioreq` calls `io_port_write` if and only if the
request is a port write with `data_is_ptr = 0`, and then exactly once, with
the request's address, its size and the low 32 bits of its data.  For a
port write with `data_is_ptr` set it stops at `assert(0)`.  For every other
request it returns with no call of `io_port_write` (its only effect is the
error line for an unknown type). -/
theorem handle_ioreq_filter (abi : XenAbi) (r : ioreq_t)
    (hrw : abi.IOREQ_READ ≠ abi.IOREQ_WRITE) :
    ((∃ calls, handle_ioreq abi r = some calls ∧ calls.any is_io_port_write = true)
        ↔ (r.type = abi.IOREQ_TYPE_PIO ∧ r.dir = abi.IOREQ_WRITE ∧ r.data_is_ptr = 0))
    ∧ (r.type = abi.IOREQ_TYPE_PIO ∧ r.dir = abi.IOREQ_WRITE ∧ r.data_is_ptr = 0 →
        handle_ioreq abi r
          = some [Event.io_port_write r.addr r.size (r.data % 4294967296)])
    ∧ (r.type = abi.IOREQ_TYPE_PIO ∧ r.dir = abi.IOREQ_WRITE ∧ r.data_is_ptr ≠ 0 →
        handle_ioreq abi r = none)
    ∧ (¬ (r.type = abi.IOREQ_TYPE_PIO ∧ r.dir = abi.IOREQ_WRITE) →
        handle_ioreq abi r = some []
        ∨ handle_ioreq abi r = some [Event.err_unknown_type r.type]) := by
  have hwr : abi.IOREQ_WRITE ≠ abi.IOREQ_READ := fun h => hrw h.symm
  unfold handle_ioreq handle_pio
  refine ⟨?_, ?_, ?_, ?_⟩
  · constructor
    · rintro ⟨calls, hc, hany⟩
      split_ifs at hc <;> simp at hc <;> subst hc <;> simp_all [is_io_port_write]
    · rintro ⟨ht, hd, hp⟩
      simp [ht, hd, hp, hwr, is_io_port_write]
  · rintro ⟨ht, hd, hp⟩
    simp [ht, hd, hp, hwr]
  · rintro ⟨ht, hd, hp⟩
    simp [ht, hd, hp, hwr]
  · intro h
    split_ifs <;> simp_all

/-- C6 (witness): the amended filter at the Xen constants and a port write. -/
theorem handle_ioreq_filter_witness :
    xenPublicAbi.IOREQ_READ ≠ xenPublicAbi.IOREQ_WRITE
    ∧ handle_ioreq xenPublicAbi ioreq_pio_write = some [Event.io_port_write 256 4 4660] :=
  ⟨by decide,
   (handle_ioreq_filter xenPublicAbi ioreq_pio_write (by decide)).2.1 (by decide)⟩

/-! ## C3: the slot state machine of `varstored_poll_iopage` -/

/-- C3 (counterexample): a ready slot that holds a port write with
`data_is_ptr` set is written `INPROCESS`, then the assertion of
`handle_pio` fails: the state never becomes `IORESP_READY` and no
notification is sent. -/
theorem poll_iopage_ready_slot_left_inprocess :
    ioreq_pio_write_by_pointer.state = xenPublicAbi.STATE_IOREQ_READY
    ∧ (varstored_poll_iopage xenPublicAbi st_initialized
        (fun _ => ioreq_pio_write_by_pointer) 0).out = Outcome.aborted
    ∧ ((varstored_poll_iopage xenPublicAbi st_initialized
        (fun _ => ioreq_pio_write_by_pointer) 0).iopage 0).state
      = xenPublicAbi.STATE_IOREQ_INPROCESS
    ∧ (varstored_poll_iopage xenPublicAbi st_initialized
        (fun _ => ioreq_pio_write_by_pointer) 0).trace
      = [Event.read_ioreq_state 0, Event.write_ioreq_state 0 2] := by
  decide

/-- C3 (amended): in phase `INITIALIZED`, `varstored_poll_iopage i` leaves a
slot whose state is not `IOREQ_READY` unchanged, handles nothing and
notifies nothing.  On a ready slot it writes `INPROCESS`, then handles the
request once; unless the request is a port write with `data_is_ptr` set, it
then writes `IORESP_READY` and sends exactly one notification, on
`ioreq_local_port[i]`.  For a port write with `data_is_ptr` set the
assertion of `handle_pio` fails with the slot left `INPROCESS` and no
notification. -/
theorem poll_iopage_slot_state_machine (abi : XenAbi) (st : varstored_state_t)
    (iopage : Nat → ioreq_t) (i : Nat) (hseq : st.seq = VARSTORED_SEQ_INITIALIZED) :
    ((iopage i).state ≠ abi.STATE_IOREQ_READY →
      varstored_poll_iopage abi st iopage i
        = { iopage := iopage, trace := [Event.read_ioreq_state i],
            out := Outcome.returned 0 })
    ∧ ((iopage i).state = abi.STATE_IOREQ_READY → ¬ pio_write_by_pointer abi (iopage i) →
        ∃ calls,
          handle_ioreq abi { iopage i with state := abi.STATE_IOREQ_INPROCESS } = some calls
          ∧ varstored_poll_iopage abi st iopage i
            = { iopage := Function.update iopage i
                  { iopage i with state := abi.STATE_IORESP_READY },
                trace := [Event.read_ioreq_state i,
                    Event.write_ioreq_state i abi.STATE_IOREQ_INPROCESS] ++ calls
                  ++ [Event.write_ioreq_state i abi.STATE_IORESP_READY,
                      Event.xc_evtchn_notify (st.ioreq_local_port.getD i 0)],
                out := Outcome.returned 0 }
          ∧ notifications (varstored_poll_iopage abi st iopage i).trace
            = [st.ioreq_local_port.getD i 0])
    ∧ ((iopage i).state = abi.STATE_IOREQ_READY → pio_write_by_pointer abi (iopage i) →
        varstored_poll_iopage abi st iopage i
          = { iopage := Function.update iopage i
                { iopage i with state := abi.STATE_IOREQ_INPROCESS },
              trace := [Event.read_ioreq_state i,
                Event.write_ioreq_state i abi.STATE_IOREQ_INPROCESS],
              out := Outcome.aborted }) := by
  refine ⟨?_, ?_, ?_⟩
  · intro h
    simp [varstored_poll_iopage, hseq, h]
  · intro h hp
    have hne : handle_ioreq abi { iopage i with state := abi.STATE_IOREQ_INPROCESS }
        ≠ none := by
      rw [Ne, handle_ioreq_eq_none_iff]
      exact hp
    obtain ⟨calls, hcalls⟩ := Option.ne_none_iff_exists'.mp hne
    have hn := notifications_handle_ioreq abi _ calls hcalls
    refine ⟨calls, hcalls, ?_, ?_⟩
    · simp [varstored_poll_iopage, hseq, h, hcalls]
    · simp [varstored_poll_iopage, hseq, h, hcalls, notifications, List.filterMap_append]
      simpa [notifications] using hn
  · intro h hp
    have hnone : handle_ioreq abi { iopage i with state := abi.STATE_IOREQ_INPROCESS }
        = none := by
      rw [handle_ioreq_eq_none_iff]
      exact hp
    simp [varstored_poll_iopage, hseq, h, hnone]

/-- C3 (witness): the state machine at the Xen constants, on a ready port
write by value. -/
theorem poll_iopage_slot_state_machine_witness :
    st_initialized.seq = VARSTORED_SEQ_INITIALIZED
    ∧ notifications (varstored_poll_iopage xenPublicAbi st_initialized
        (fun _ => ioreq_pio_write) 1).trace = [51] := by
  refine ⟨by decide, ?_⟩
  obtain ⟨_, _, _, h⟩ :=
    (poll_iopage_slot_state_machine xenPublicAbi st_initialized (fun _ => ioreq_pio_write) 1
      (by decide)).2.1 (by decide) (by decide)
  exact h

/-! ## C9: the policy booleans -/

theorem strcmp_eq_zero_iff (a b : List Nat) :
    strcmp a b = 0 ↔ cstr_of a = cstr_of b := by
  induction a generalizing b with
  | nil =>
    cases b with
    | nil => simp [strcmp]
    | cons b0 bs =>
      by_cases hb : b0 = 0
      · simp [strcmp, cstr_of, List.takeWhile, hb]
      · simp [strcmp, cstr_of, List.takeWhile, hb]
  | cons a0 as ih =>
    cases b with
    | nil =>
      by_cases ha : a0 = 0
      · simp [strcmp, cstr_of, List.takeWhile, ha]
      · simp [strcmp, cstr_of, List.takeWhile, ha]
    | cons b0 bs =>
      by_cases hab : a0 = b0
      · subst hab
        by_cases ha : a0 = 0
        · simp [strcmp, cstr_of, List.takeWhile, ha]
        · have := ih bs
          simp only [cstr_of] at this
          simp [strcmp, cstr_of, List.takeWhile, ha, this]
      · have hsub : (a0 : Int) - (b0 : Int) ≠ 0 := by omega
        by_cases ha : a0 = 0
        · have hb : b0 ≠ 0 := fun h => hab (ha.trans h.symm)
          simp [strcmp, cstr_of, List.takeWhile, ha, hb, hab, hsub]
          omega
        · by_cases hb : b0 = 0
          · simp [strcmp, cstr_of, List.takeWhile, ha, hb, hab, hsub]
          · simp [strcmp, cstr_of, List.takeWhile, ha, hb, hab, hsub]

/-- C9: `initialize_settings` sets `secure_boot_enable` exactly when the
secureboot value is present and is the string "true", and clears
`auth_enforce` exactly when the auth-enforce value is present and is the
string "false"; a value is the C string that `xs_read` returned. -/
theorem initialize_settings_policy (secureboot auth : Option (List Nat)) :
    ((initialize_settings secureboot auth).1.secure_boot_enable = true
        ↔ ∃ s, secureboot = some s ∧ cstr_of s = c_str "true")
    ∧ ((initialize_settings secureboot auth).1.auth_enforce = false
        ↔ ∃ s, auth = some s ∧ cstr_of s = c_str "false") := by
  have ht : cstr_of (c_str "true") = c_str "true" := by decide
  have hf : cstr_of (c_str "false") = c_str "false" := by decide
  constructor
  · cases secureboot with
    | none => simp [initialize_settings]
    | some s => simp [initialize_settings, strcmp_eq_zero_iff, ht]
  · cases auth with
    | none => simp [initialize_settings]
    | some s => simp [initialize_settings, strcmp_eq_zero_iff, hf]

/-! ## C4, C5: the drain of the buffered ring -/

theorem handle_ioreq_by_value (abi : XenAbi) (r : ioreq_t) (h : r.data_is_ptr = 0) :
    ∃ calls, handle_ioreq abi r = some calls
      ∧ calls.filter (fun e => !is_read_slot e) = calls := by
  unfold handle_ioreq handle_pio
  split_ifs <;> simp [is_read_slot]

theorem drain_entry_single (abi : XenAbi) (page : buffered_iopage_t) (p : Nat)
    (h : ¬ 2 ^ (page.buf_ioreq (p % abi.IOREQ_BUFFER_SLOT_NUM)).size.val = 8) :
    drain_entry abi page p
      = ((p + 1) % 4294967296, [Event.read_slot p (p % abi.IOREQ_BUFFER_SLOT_NUM)],
          spec_ring_entry abi (page.buf_ioreq (p % abi.IOREQ_BUFFER_SLOT_NUM)) none) := by
  simp [drain_entry, buf_ioreq_decode, spec_ring_entry, Nat.one_shiftLeft, h]

theorem drain_entry_pair (abi : XenAbi) (page : buffered_iopage_t) (p : Nat)
    (h : 2 ^ (page.buf_ioreq (p % abi.IOREQ_BUFFER_SLOT_NUM)).size.val = 8) :
    drain_entry abi page p
      = ((p + 2) % 4294967296,
          [Event.read_slot p (p % abi.IOREQ_BUFFER_SLOT_NUM),
           Event.read_slot ((p + 1) % 4294967296)
             (((p + 1) % 4294967296) % abi.IOREQ_BUFFER_SLOT_NUM)],
          spec_ring_entry abi (page.buf_ioreq (p % abi.IOREQ_BUFFER_SLOT_NUM))
            (some (page.buf_ioreq
              (((p + 1) % 4294967296) % abi.IOREQ_BUFFER_SLOT_NUM)))) := by
  have h2 : ((p + 1) % 4294967296 + 1) % 4294967296 = (p + 2) % 4294967296 := by omega
  simp [drain_entry, buf_ioreq_decode, spec_ring_entry, Nat.one_shiftLeft, h, h2]

theorem spec_ring_entries_single (abi : XenAbi) (page : buffered_iopage_t) (n p : Nat)
    (h : ¬ 2 ^ (page.buf_ioreq (p % abi.IOREQ_BUFFER_SLOT_NUM)).size.val = 8) :
    spec_ring_entries abi page (n + 1) p
      = (spec_ring_entries abi page n ((p + 1) % 4294967296)).map
          fun rest =>
            spec_ring_entry abi (page.buf_ioreq (p % abi.IOREQ_BUFFER_SLOT_NUM)) none :: rest := by
  cases n with
  | zero => simp [spec_ring_entries, h]
  | succ m => simp [spec_ring_entries, h]

theorem spec_ring_entries_pair (abi : XenAbi) (page : buffered_iopage_t) (n p : Nat)
    (h : 2 ^ (page.buf_ioreq (p % abi.IOREQ_BUFFER_SLOT_NUM)).size.val = 8) :
    spec_ring_entries abi page (n + 2) p
      = (spec_ring_entries abi page n ((p + 2) % 4294967296)).map
          fun rest =>
            spec_ring_entry abi (page.buf_ioreq (p % abi.IOREQ_BUFFER_SLOT_NUM))
              (some (page.buf_ioreq
                (((p + 1) % 4294967296) % abi.IOREQ_BUFFER_SLOT_NUM))) :: rest := by
  simp [spec_ring_entries, h]

theorem spec_ring_entries_half_pair (abi : XenAbi) (page : buffered_iopage_t) (p : Nat)
    (h : 2 ^ (page.buf_ioreq (p % abi.IOREQ_BUFFER_SLOT_NUM)).size.val = 8) :
    spec_ring_entries abi page 1 p = none := by
  simp [spec_ring_entries, h]

theorem drain_loop_wellformed (abi : XenAbi) (page : buffered_iopage_t) (wp : Nat)
    (hwp : wp < 4294967296) :
    ∀ (fuel n rp : Nat) (entries : List ioreq_t), rp < 4294967296 →
      ring_distance rp wp = n → spec_ring_entries abi page n rp = some entries →
      (∀ p s, Event.read_slot p s ∈ (drain_loop abi page fuel rp wp).trace →
          ring_distance rp p < n ∧ s = p % abi.IOREQ_BUFFER_SLOT_NUM)
      ∧ ring_distance rp (drain_loop abi page fuel rp wp).read_pointer ≤ n
      ∧ (n ≤ fuel →
          (drain_loop abi page fuel rp wp).read_pointer = wp
          ∧ (drain_loop abi page fuel rp wp).handled = entries
          ∧ (drain_loop abi page fuel rp wp).out = Outcome.returned 0
          ∧ (drain_loop abi page fuel rp wp).trace.filter (fun e => !is_read_slot e)
            = io_calls abi entries) := by
  intro fuel
  induction fuel with
  | zero =>
    intro n rp entries hrp hn hs
    by_cases heq : rp = wp
    · subst heq
      have hn0 : n = 0 := by
        rw [← hn]
        unfold ring_distance
        omega
      subst hn0
      simp [spec_ring_entries] at hs
      subst hs
      simp [drain_loop, ring_distance, io_calls]
    · have hn0 : n ≠ 0 := by
        rw [← hn]
        unfold ring_distance
        omega
      simp [drain_loop, heq, ring_distance]
      omega
  | succ fuel ih =>
    intro n rp entries hrp hn hs
    by_cases heq : rp = wp
    · subst heq
      have hn0 : n = 0 := by
        rw [← hn]
        unfold ring_distance
        omega
      subst hn0
      simp [spec_ring_entries] at hs
      subst hs
      simp [drain_loop, ring_distance, io_calls]
    · have hn0 : n ≠ 0 := by
        rw [← hn]
        unfold ring_distance
        omega
      obtain ⟨m, rfl⟩ := Nat.exists_eq_succ_of_ne_zero hn0
      unfold ring_distance at hn
      by_cases h8 : 2 ^ (page.buf_ioreq (rp % abi.IOREQ_BUFFER_SLOT_NUM)).size.val = 8
      · -- an entry of two slots
        cases m with
        | zero =>
          rw [spec_ring_entries_half_pair abi page rp h8] at hs
          simp at hs
        | succ k =>
          rw [spec_ring_entries_pair abi page k rp h8] at hs
          obtain ⟨rest, hrest, hentries⟩ := Option.map_eq_some'.mp hs
          subst hentries
          have hd : ring_distance ((rp + 2) % 4294967296) wp = k := by
            unfold ring_distance
            omega
          obtain ⟨ih1, ih2, ih3⟩ :=
            ih k ((rp + 2) % 4294967296) rest (Nat.mod_lt _ (by norm_num)) hd hrest
          obtain ⟨calls, hcalls, hfilter⟩ := handle_ioreq_by_value abi
            (spec_ring_entry abi (page.buf_ioreq (rp % abi.IOREQ_BUFFER_SLOT_NUM))
              (some (page.buf_ioreq
                (((rp + 1) % 4294967296) % abi.IOREQ_BUFFER_SLOT_NUM)))) rfl
          simp only [drain_loop, heq, if_false, drain_entry_pair abi page rp h8, hcalls]
          refine ⟨?_, ?_, ?_⟩
          · intro p s hmem
            simp only [List.mem_append, List.mem_cons, List.mem_singleton,
              List.not_mem_nil, or_false] at hmem
            rcases hmem with ((h1 | h1) | h1) | h1
            · injection h1 with hp hs1
              subst hp hs1
              exact ⟨by unfold ring_distance; omega, rfl⟩
            · injection h1 with hp hs1
              subst hp hs1
              exact ⟨by unfold ring_distance; omega, rfl⟩
            · exfalso
              have hin : Event.read_slot p s ∈ calls.filter (fun e => !is_read_slot e) := by
                rw [hfilter]; exact h1
              simp [is_read_slot] at hin
            · obtain ⟨hlt, hslot⟩ := ih1 p s h1
              refine ⟨?_, hslot⟩
              unfold ring_distance at hlt ⊢
              omega
          · unfold ring_distance at ih2 ⊢
            omega
          · intro hfuel
            obtain ⟨h1, h2, h3, h4⟩ := ih3 (by omega)
            refine ⟨h1, by rw [h2], h3, ?_⟩
            simp only [List.filter_append, h4, hfilter]
            simp [is_read_slot, io_calls, hcalls]
      · -- an entry of one slot
        rw [spec_ring_entries_single abi page m rp h8] at hs
        obtain ⟨rest, hrest, hentries⟩ := Option.map_eq_some'.mp hs
        subst hentries
        have hd : ring_distance ((rp + 1) % 4294967296) wp = m := by
          unfold ring_distance
          omega
        obtain ⟨ih1, ih2, ih3⟩ :=
          ih m ((rp + 1) % 4294967296) rest (Nat.mod_lt _ (by norm_num)) hd hrest
        obtain ⟨calls, hcalls, hfilter⟩ := handle_ioreq_by_value abi
          (spec_ring_entry abi (page.buf_ioreq (rp % abi.IOREQ_BUFFER_SLOT_NUM)) none) rfl
        simp only [drain_loop, heq, if_false, drain_entry_single abi page rp h8, hcalls]
        refine ⟨?_, ?_, ?_⟩
        · intro p s hmem
          simp only [List.mem_append, List.mem_cons, List.mem_singleton,
            List.not_mem_nil, or_false] at hmem
          rcases hmem with (h1 | h1) | h1
          · injection h1 with hp hs1
            subst hp hs1
            exact ⟨by unfold ring_distance; omega, rfl⟩
          · exfalso
            have hin : Event.read_slot p s ∈ calls.filter (fun e => !is_read_slot e) := by
              rw [hfilter]; exact h1
            simp [is_read_slot] at hin
          · obtain ⟨hlt, hslot⟩ := ih1 p s h1
            refine ⟨?_, hslot⟩
            unfold ring_distance at hlt ⊢
            omega
        · unfold ring_distance at ih2 ⊢
          omega
        · intro hfuel
          obtain ⟨h1, h2, h3, h4⟩ := ih3 (by omega)
          refine ⟨h1, by rw [h2], h3, ?_⟩
          simp only [List.filter_append, h4, hfilter]
          simp [is_read_slot, io_calls, hcalls]

theorem drain_loop_returned (abi : XenAbi) (page : buffered_iopage_t) (wp : Nat) :
    ∀ (fuel rp : Nat), (drain_loop abi page fuel rp wp).out = Outcome.returned 0 →
      (drain_loop abi page fuel rp wp).read_pointer = wp := by
  intro fuel
  induction fuel with
  | zero =>
    intro rp h
    by_cases heq : rp = wp
    · simp [drain_loop, heq]
    · simp [drain_loop, heq] at h
  | succ fuel ih =>
    intro rp h
    by_cases heq : rp = wp
    · simp [drain_loop, heq]
    · simp only [drain_loop, heq, if_false] at h ⊢
      split at h
      · simp at h
      · exact ih _ h

theorem handle_ioreq_events (abi : XenAbi) (r : ioreq_t) (calls : List Event)
    (h : handle_ioreq abi r = some calls) :
    ∀ e ∈ calls, is_drain_event e = true ∧ is_read_slot e = false := by
  unfold handle_ioreq handle_pio at h
  split_ifs at h <;> simp at h <;> subst h <;> simp [is_drain_event, is_read_slot]

theorem drain_entry_events (abi : XenAbi) (page : buffered_iopage_t) (p : Nat) :
    ∀ e ∈ (drain_entry abi page p).2.1, is_drain_event e = true := by
  by_cases h8 : 2 ^ (page.buf_ioreq (p % abi.IOREQ_BUFFER_SLOT_NUM)).size.val = 8
  · simp [drain_entry_pair abi page p h8, is_drain_event]
  · simp [drain_entry_single abi page p h8, is_drain_event]

theorem drain_loop_events (abi : XenAbi) (page : buffered_iopage_t) (wp : Nat) :
    ∀ (fuel rp : Nat), ∀ e ∈ (drain_loop abi page fuel rp wp).trace,
      is_drain_event e = true := by
  intro fuel
  induction fuel with
  | zero =>
    intro rp e he
    by_cases heq : rp = wp <;> simp [drain_loop, heq] at he
  | succ fuel ih =>
    intro rp e he
    by_cases heq : rp = wp
    · simp [drain_loop, heq] at he
    · simp only [drain_loop, heq, if_false] at he
      split at he
      · exact drain_entry_events abi page rp e he
      · rename_i calls hcalls
        simp only [List.mem_append] at he
        rcases he with (h1 | h1) | h1
        · exact drain_entry_events abi page rp e h1
        · exact (handle_ioreq_events abi _ calls hcalls e h1).1
        · exact ih _ e h1

theorem poll_buffered_passes_drained (abi : XenAbi) (fuel passes : Nat)
    (page : buffered_iopage_t) (h : page.read_pointer = page.write_pointer) :
    (poll_buffered_passes abi fuel (passes + 1) page).trace
        = [Event.read_pointers page.read_pointer page.write_pointer]
    ∧ (poll_buffered_passes abi fuel (passes + 1) page).handled = []
    ∧ (poll_buffered_passes abi fuel (passes + 1) page).out = Outcome.returned 0
    ∧ (poll_buffered_passes abi fuel (passes + 1) page).page.read_pointer
        = page.write_pointer := by
  simp [poll_buffered_passes, h]

/-- The trace of the loop `for (;;)`: the sampled pointers, the drain, and
when the drain ends, the write back followed by what the next turns do on a
page whose two pointers are equal. -/
theorem poll_buffered_passes_trace (abi : XenAbi) (fuel passes : Nat)
    (page : buffered_iopage_t) :
    ∀ e ∈ (poll_buffered_passes abi fuel passes page).trace,
      e = Event.read_pointers page.read_pointer page.write_pointer
      ∨ e ∈ (drain_loop abi page fuel page.read_pointer page.write_pointer).trace
      ∨ e = Event.write_read_pointer page.write_pointer
      ∨ e = Event.read_pointers page.write_pointer page.write_pointer := by
  intro e he
  cases passes with
  | zero => simp [poll_buffered_passes] at he
  | succ k =>
    by_cases heq : page.read_pointer = page.write_pointer
    · simp [poll_buffered_passes, heq] at he
      simp [he, heq]
    · by_cases hout : (drain_loop abi page fuel page.read_pointer page.write_pointer).out
          = Outcome.returned 0
      · have hptr := drain_loop_returned abi page page.write_pointer fuel
          page.read_pointer hout
        simp only [poll_buffered_passes, heq, if_false, hout, ne_eq, not_true_eq_false,
          hptr, List.mem_append, List.mem_singleton] at he
        rcases he with ((h1 | h1) | h1) | h1
        · exact Or.inl h1
        · exact Or.inr (Or.inl h1)
        · exact Or.inr (Or.inr (Or.inl h1))
        · cases k with
          | zero => simp [poll_buffered_passes] at h1
          | succ j =>
            simp [poll_buffered_passes] at h1
            exact Or.inr (Or.inr (Or.inr h1))
      · simp only [poll_buffered_passes, heq, if_false, hout, ne_eq, not_false_eq_true,
          if_true, List.mem_append, List.mem_singleton] at he
        rcases he with h1 | h1
        · exact Or.inl h1
        · exact Or.inr (Or.inl h1)

/-- C4 (counterexample): with an entry of size 8 in the last published slot
(read pointer 0, write pointer 1), the drain reads the slot at pointer 1,
which is the write pointer itself, and its local read pointer becomes 2. -/
theorem drain_reads_slot_at_write_pointer :
    page_half_pair.read_pointer = 0 ∧ page_half_pair.write_pointer = 1
    ∧ (varstored_poll_buffered_iopage xenPublicAbi st_initialized 1 1 page_half_pair).trace
      = [Event.read_pointers 0 1, Event.read_slot 0 0, Event.read_slot 1 1,
         Event.io_port_write 256 8 1]
    ∧ (drain_loop xenPublicAbi page_half_pair 1 0 1).read_pointer = 2 := by
  decide

/-- C4 (amended): on a ring in which every entry of size 8 has its second
half before the write pointer, `varstored_poll_buffered_iopage` reads only
slots at pointers `p` from the sampled read pointer up to, and not
including, the sampled write pointer (in wrap-around order), each at index
`p mod IOREQ_BUFFER_SLOT_NUM`; after any number of turns of the drain loop
the local read pointer is not beyond the write pointer; and the only value
written back to `read_pointer` is the write pointer. -/
theorem buffered_reads_within_published (abi : XenAbi) (st : varstored_state_t)
    (page : buffered_iopage_t) (entries : List ioreq_t) (fuel passes : Nat)
    (hrp : page.read_pointer < 4294967296) (hwp : page.write_pointer < 4294967296)
    (hwf : spec_ring_entries abi page
      (ring_distance page.read_pointer page.write_pointer) page.read_pointer = some entries) :
    (∀ p s, Event.read_slot p s
        ∈ (varstored_poll_buffered_iopage abi st fuel passes page).trace →
      ring_distance page.read_pointer p < ring_distance page.read_pointer page.write_pointer
      ∧ s = p % abi.IOREQ_BUFFER_SLOT_NUM)
    ∧ (∀ turns, ring_distance page.read_pointer
        (drain_loop abi page turns page.read_pointer page.write_pointer).read_pointer
      ≤ ring_distance page.read_pointer page.write_pointer)
    ∧ (∀ v, Event.write_read_pointer v
        ∈ (varstored_poll_buffered_iopage abi st fuel passes page).trace →
      v = page.write_pointer) := by
  have key := fun turns => drain_loop_wellformed abi page page.write_pointer hwp turns
    (ring_distance page.read_pointer page.write_pointer) page.read_pointer entries hrp rfl hwf
  refine ⟨?_, fun turns => (key turns).2.1, ?_⟩
  · intro p s hmem
    unfold varstored_poll_buffered_iopage at hmem
    split_ifs at hmem
    · simp at hmem
    · rcases poll_buffered_passes_trace abi fuel passes page _ hmem with h | h | h | h
      · simp at h
      · exact (key fuel).1 p s h
      · simp at h
      · simp at h
  · intro v hmem
    unfold varstored_poll_buffered_iopage at hmem
    split_ifs at hmem
    · simp at hmem
    · rcases poll_buffered_passes_trace abi fuel passes page _ hmem with h | h | h | h
      · simp at h
      · have := drain_loop_events abi page page.write_pointer fuel page.read_pointer _ h
        simp [is_drain_event] at this
      · simpa using h
      · simp at h

/-- C4 (witness): the amended ring safety on a ring of three published
slots that wraps around the 32-bit pointer. -/
theorem buffered_reads_within_published_witness :
    page_three_slots.read_pointer < 4294967296
    ∧ page_three_slots.write_pointer < 4294967296
    ∧ spec_ring_entries xenPublicAbi page_three_slots
        (ring_distance page_three_slots.read_pointer page_three_slots.write_pointer)
        page_three_slots.read_pointer
      = some [spec_ring_entry xenPublicAbi (slot_write 2 256 7) none,
          spec_ring_entry xenPublicAbi (slot_write 3 260 1) (some (slot_write 0 264 2))]
    ∧ ∀ v, Event.write_read_pointer v
        ∈ (varstored_poll_buffered_iopage xenPublicAbi st_initialized 3 2
            page_three_slots).trace →
      v = page_three_slots.write_pointer :=
  ⟨by decide, by decide, by decide,
   (buffered_reads_within_published xenPublicAbi st_initialized page_three_slots
      [spec_ring_entry xenPublicAbi (slot_write 2 256 7) none,
        spec_ring_entry xenPublicAbi (slot_write 3 260 1) (some (slot_write 0 264 2))] 3 2
      (by decide) (by decide) (by decide)).2.2⟩

/-- C5: on a ring snapshot in which every entry of size 8 has its second
half before the write pointer, `varstored_poll_buffered_iopage` returns,
the requests it hands to `handle_ioreq` are exactly the entries of the
reference decoding between the read and the write pointer, in FIFO order (a
pair as one request), and apart from the slot reads its trace is: the
sampled pointers, the calls of handling the entries in order, the one write
back of `read_pointer` with the value of the write pointer, and the sample
that ends the loop.  The slots and the write pointer are left as they
were. -/
theorem buffered_drain_refines_spec_ring_entries (abi : XenAbi) (st : varstored_state_t)
    (page : buffered_iopage_t) (entries : List ioreq_t) (fuel passes : Nat)
    (hseq : st.seq = VARSTORED_SEQ_INITIALIZED)
    (hrp : page.read_pointer < 4294967296) (hwp : page.write_pointer < 4294967296)
    (hwf : spec_ring_entries abi page
      (ring_distance page.read_pointer page.write_pointer) page.read_pointer = some entries)
    (hfuel : ring_distance page.read_pointer page.write_pointer ≤ fuel)
    (hpasses : 2 ≤ passes) :
    (varstored_poll_buffered_iopage abi st fuel passes page).out = Outcome.returned 0
    ∧ (varstored_poll_buffered_iopage abi st fuel passes page).handled = entries
    ∧ (varstored_poll_buffered_iopage abi st fuel passes page).page.read_pointer
      = page.write_pointer
    ∧ (varstored_poll_buffered_iopage abi st fuel passes page).page.write_pointer
      = page.write_pointer
    ∧ (varstored_poll_buffered_iopage abi st fuel passes page).page.buf_ioreq
      = page.buf_ioreq
    ∧ (varstored_poll_buffered_iopage abi st fuel passes page).trace.filter
        (fun e => !is_read_slot e)
      = if page.read_pointer = page.write_pointer then
          [Event.read_pointers page.read_pointer page.write_pointer]
        else
          Event.read_pointers page.read_pointer page.write_pointer :: io_calls abi entries
            ++ [Event.write_read_pointer page.write_pointer,
                Event.read_pointers page.write_pointer page.write_pointer] := by
  obtain ⟨k, rfl⟩ : ∃ k, passes = k + 2 := ⟨passes - 2, by omega⟩
  obtain ⟨_, _, hfull⟩ := drain_loop_wellformed abi page page.write_pointer hwp fuel
    (ring_distance page.read_pointer page.write_pointer) page.read_pointer entries hrp rfl hwf
  obtain ⟨h1, h2, h3, h4⟩ := hfull hfuel
  by_cases heq : page.read_pointer = page.write_pointer
  · have hd : ring_distance page.read_pointer page.write_pointer = 0 := by
      unfold ring_distance
      omega
    rw [hd] at hwf
    simp [spec_ring_entries] at hwf
    subst hwf
    simp [varstored_poll_buffered_iopage, hseq, poll_buffered_passes, heq, is_read_slot]
  · have e1 : ∀ a b, is_read_slot (Event.read_pointers a b) = false := fun _ _ => rfl
    have e2 : ∀ v, is_read_slot (Event.write_read_pointer v) = false := fun _ => rfl
    simp [varstored_poll_buffered_iopage, hseq, poll_buffered_passes, heq, h1, h2, h3,
      h4, List.filter_append, e1, e2]

/-- C5 (witness): the drain of a ring of three published slots hands on a
four-byte write and then one eight-byte write built from two slots. -/
theorem buffered_drain_refines_spec_ring_entries_witness :
    (varstored_poll_buffered_iopage xenPublicAbi st_initialized 3 2 page_three_slots).handled
      = [spec_ring_entry xenPublicAbi (slot_write 2 256 7) none,
          spec_ring_entry xenPublicAbi (slot_write 3 260 1) (some (slot_write 0 264 2))] :=
  (buffered_drain_refines_spec_ring_entries xenPublicAbi st_initialized page_three_slots
      [spec_ring_entry xenPublicAbi (slot_write 2 256 7) none,
        spec_ring_entry xenPublicAbi (slot_write 3 260 1) (some (slot_write 0 264 2))] 3 2
      (by decide) (by decide) (by decide) (by decide) (by decide) (by decide)).2.1

/-! ## C10: the phase counter of `varstored_initialize` -/

theorem phases_entered_append (a b : List Event) :
    phases_entered (a ++ b) = phases_entered a ++ phases_entered b := by
  simp [phases_entered, List.filterMap_append]

theorem phases_entered_cons (e : Event) (l : List Event) :
    phases_entered (e :: l)
      = (match e with
          | Event.seq_next seq => [seq]
          | _ => []) ++ phases_entered l := by
  cases e <;> simp [phases_entered, List.filterMap_cons]

theorem phases_entered_nil : phases_entered [] = [] := rfl

theorem acquire_log_append (abi : XenAbi) (a b : List Event) :
    acquire_log abi (a ++ b) = acquire_log abi a ++ acquire_log abi b := by
  simp [acquire_log, List.filterMap_append]

theorem acquire_log_cons (abi : XenAbi) (e : Event) (l : List Event) :
    acquire_log abi (e :: l) = (acquired_by abi e).toList ++ acquire_log abi l := by
  cases h : acquired_by abi e <;> simp [acquire_log, List.filterMap_cons, h]

theorem acquire_log_nil (abi : XenAbi) : acquire_log abi [] = [] := rfl

theorem saves_append (a b : List Event) : saves (a ++ b) = saves a ++ saves b := by
  simp [saves, List.filterMap_append]

theorem saves_cons (e : Event) (l : List Event) :
    saves (e :: l)
      = (match e with
          | Event.backend_save ok => [ok]
          | _ => []) ++ saves l := by
  cases e <;> simp [saves, List.filterMap_cons]

theorem saves_nil : saves [] = [] := rfl

theorem signals_handled_append (a b : List Event) :
    signals_handled (a ++ b) = signals_handled a ++ signals_handled b := by
  simp [signals_handled, List.filterMap_append]

theorem signals_handled_cons (e : Event) (l : List Event) :
    signals_handled (e :: l)
      = (match e with
          | Event.signal_handler num => [num]
          | _ => []) ++ signals_handled l := by
  cases e <;> simp [signals_handled, List.filterMap_cons]

theorem signals_handled_nil : signals_handled [] = [] := rfl

theorem wait_for_ioreq_server_neutral (abi : XenAbi) (answers : List (Int × Nat)) :
    phases_entered (wait_for_ioreq_server answers).1 = []
    ∧ acquire_log abi (wait_for_ioreq_server answers).1 = []
    ∧ saves (wait_for_ioreq_server answers).1 = []
    ∧ signals_handled (wait_for_ioreq_server answers).1 = [] := by
  induction answers with
  | nil => simp [wait_for_ioreq_server, phases_entered_nil, acquire_log_nil, saves_nil,
      signals_handled_nil]
  | cons a rest ih =>
    obtain ⟨rc, number⟩ := a
    obtain ⟨ih1, ih2, ih3, ih4⟩ := ih
    unfold wait_for_ioreq_server
    split_ifs <;>
      simp [phases_entered_cons, acquire_log_cons, saves_cons, signals_handled_cons,
        phases_entered_nil, acquire_log_nil, saves_nil, signals_handled_nil, ih1, ih2, ih3,
        ih4, acquired_by]

theorem bind_vcpu_ports_log (abi : XenAbi) (env : InitEnv) :
    ∀ (n i : Nat) (table : List Int),
      phases_entered (bind_vcpu_ports abi env n i table).2.1 = []
      ∧ saves (bind_vcpu_ports abi env n i table).2.1 = []
      ∧ signals_handled (bind_vcpu_ports abi env n i table).2.1 = []
      ∧ acquire_log abi (bind_vcpu_ports abi env n i table).2.1
        = (List.range (bind_success_count env n i)).map
            (fun j => Resource.vcpu_port (i + j) (to_evtchn_port abi (env.bind_rc (i + j))))
      ∧ bind_success_count env n i ≤ n
      ∧ ((bind_vcpu_ports abi env n i table).2.2 = true ↔ bind_success_count env n i = n) := by
  intro n
  induction n with
  | zero =>
    intro i table
    simp [bind_vcpu_ports, bind_success_count, phases_entered_nil, saves_nil,
      signals_handled_nil, acquire_log_nil]
  | succ n ih =>
    intro i table
    by_cases hrc : env.bind_rc i < 0
    · simp [bind_vcpu_ports, bind_success_count, hrc, phases_entered_cons, saves_cons,
        signals_handled_cons, acquire_log_cons, phases_entered_nil, saves_nil,
        signals_handled_nil, acquire_log_nil, acquired_by]
    · obtain ⟨h1, h2, h3, h4, h5, h6⟩ :=
        ih (i + 1) (table.set i (to_evtchn_port abi (env.bind_rc i)))
      simp only [bind_vcpu_ports, bind_success_count, hrc, if_false, phases_entered_cons,
        saves_cons, signals_handled_cons, acquire_log_cons, h1, h2, h3, h4, acquired_by,
        List.nil_append, Option.toList, List.singleton_append]
      refine ⟨trivial, trivial, trivial, ?_, by omega, ?_⟩
      · rw [List.range_succ_eq_map]
        simp [Function.comp_def, Nat.add_assoc, Nat.add_comm 1]
      · rw [h6]
        omega

theorem initialize_settings_neutral (abi : XenAbi) (a b : Option (List Nat)) :
    phases_entered (initialize_settings a b).2 = []
    ∧ acquire_log abi (initialize_settings a b).2 = []
    ∧ saves (initialize_settings a b).2 = []
    ∧ signals_handled (initialize_settings a b).2 = [] := by
  simp [initialize_settings, phases_entered, acquire_log, saves, signals_handled, acquired_by]

theorem backend_start_neutral (abi : XenAbi) (env : InitEnv) :
    phases_entered (backend_start env).1 = []
    ∧ acquire_log abi (backend_start env).1 = []
    ∧ saves (backend_start env).1 = []
    ∧ signals_handled (backend_start env).1 = [] := by
  unfold backend_start
  split_ifs <;> simp [phases_entered, acquire_log, saves, signals_handled, acquired_by]

theorem xs_write_pid_log (abi : XenAbi) (env : XsWritePidEnv) :
    phases_entered (xs_write_pid env).2 = []
    ∧ acquire_log abi (xs_write_pid env).2
      = (if (xs_write_pid env).1 = true then [Resource.pid_node] else [])
    ∧ saves (xs_write_pid env).2 = []
    ∧ signals_handled (xs_write_pid env).2 = [] := by
  unfold xs_write_pid
  split_ifs <;> simp_all [phases_entered, acquire_log, saves, signals_handled, acquired_by]

theorem ite_induct {α : Type} (P : α → Prop) (c : Prop) [Decidable c] (a b : α)
    (ha : c → P a) (hb : ¬ c → P b) : P (if c then a else b) := by
  by_cases h : c
  · simpa [h] using ha h
  · simpa [h] using hb h

set_option maxHeartbeats 1000000 in
theorem init_run_counter_ok (abi : XenAbi) (env : InitEnv) (domid : Nat)
    (st0 : varstored_state_t) (h0 : st0.seq = VARSTORED_SEQ_UNINITIALIZED) :
    run_counter_ok ( varstored_initialize abi env domid st0) := by
  obtain ⟨seq, d0, v0, i0, t0, b0⟩ := st0
  simp only [VARSTORED_SEQ_UNINITIALIZED] at h0
  subst h0
  obtain ⟨hw1, -, hw3, hw4⟩ := wait_for_ioreq_server_neutral abi env.param_get
  obtain ⟨hs1, -, hs3, hs4⟩ :=
    initialize_settings_neutral abi env.secureboot env.auth_enforce
  obtain ⟨hk1, -, hk3, hk4⟩ := backend_start_neutral abi env
  obtain ⟨hp1, -, hp3, hp4⟩ := xs_write_pid_log abi env.write_pid
  obtain ⟨hb1, hb2, hb3, -, -, -⟩ := bind_vcpu_ports_log abi env
    ((env.dominfo_max_vcpu_id + 1) % 4294967296) 0
    (List.replicate ((env.dominfo_max_vcpu_id + 1) % 4294967296) (to_evtchn_port abi (-1)))
  cases hwr : (wait_for_ioreq_server env.param_get).2 <;>
  simp only [ varstored_initialize, varstored_seq_next, VARSTORED_SEQ_INITIALIZED, fail_exit,
    assert_exit, Nat.zero_add, Nat.reduceAdd, Nat.reduceLT, Nat.reduceLeDiff, if_true, and_self,
    Nat.one_le_ofNat, hwr] <;>
  repeat' (refine ite_induct run_counter_ok _ _ _ (fun _ => ?_) (fun _ => ?_))
  all_goals
    simp only [run_counter_ok, phases_entered_append, phases_entered_cons, phases_entered_nil,
      saves_append, saves_cons, saves_nil, signals_handled_append, signals_handled_cons,
      signals_handled_nil, hw3, hs3, hk3, hp3, hb2, hw4, hs4, hk4, hp4, hb3,
      hw1, hs1, hk1, hp1, hb1, List.append_nil, List.nil_append, List.cons_append, ne_eq,
      reduceCtorEq, not_false_eq_true, true_and, VARSTORED_SEQ_INITIALIZED]
    simp [List.range']

set_option maxHeartbeats 4000000 in
theorem init_run_acquired_ok (abi : XenAbi) (env : InitEnv) (domid : Nat)
    (st0 : varstored_state_t) (h0 : st0.seq = VARSTORED_SEQ_UNINITIALIZED) :
    run_acquired_ok abi ( varstored_initialize abi env domid st0) := by
  obtain ⟨seq, d0, v0, i0, t0, b0⟩ := st0
  simp only [VARSTORED_SEQ_UNINITIALIZED] at h0
  subst h0
  obtain ⟨-, hw2, -, -⟩ := wait_for_ioreq_server_neutral abi env.param_get
  obtain ⟨-, hs2, -, -⟩ := initialize_settings_neutral abi env.secureboot env.auth_enforce
  obtain ⟨-, hk2, -, -⟩ := backend_start_neutral abi env
  obtain ⟨-, hp2, -, -⟩ := xs_write_pid_log abi env.write_pid
  obtain ⟨-, -, -, hb3, hb4, hb5⟩ := bind_vcpu_ports_log abi env
    ((env.dominfo_max_vcpu_id + 1) % 4294967296) 0
    (List.replicate ((env.dominfo_max_vcpu_id + 1) % 4294967296) (to_evtchn_port abi (-1)))
  cases hwr : (wait_for_ioreq_server env.param_get).2 <;>
  simp only [ varstored_initialize, varstored_seq_next, VARSTORED_SEQ_INITIALIZED, fail_exit,
    assert_exit, Nat.zero_add, Nat.reduceAdd, Nat.reduceLT, Nat.reduceLeDiff, if_true, and_self,
    Nat.one_le_ofNat, hwr] <;>
  repeat' (refine ite_induct (run_acquired_ok abi) _ _ _ (fun _ => ?_) (fun _ => ?_))
  all_goals
    simp only [run_acquired_ok, acquire_log_append, acquire_log_cons, acquire_log_nil,
      hw2, hs2, hk2, hp2, hb3, List.append_nil, List.nil_append, List.cons_append,
      reduceCtorEq, false_implies, Outcome.returned.injEq, VARSTORED_SEQ_WROTE_PID]
    try trivial
  all_goals
    intro _ phase hp1 hp11
    interval_cases phase <;>
      simp_all [phase_acquired, acquired_by, VARSTORED_SEQ_INTERFACE_OPEN,
        VARSTORED_SEQ_SERVER_REGISTERED, VARSTORED_SEQ_SHARED_IOPAGE_MAPPED,
        VARSTORED_SEQ_BUFFERED_IOPAGE_MAPPED, VARSTORED_SEQ_SERVER_ENABLED,
        VARSTORED_SEQ_PORT_ARRAY_ALLOCATED, VARSTORED_SEQ_EVTCHN_OPEN,
        VARSTORED_SEQ_PORTS_BOUND, VARSTORED_SEQ_BUF_PORT_BOUND,
        VARSTORED_SEQ_PORT_INITIALIZED, VARSTORED_SEQ_WROTE_PID] <;>
      first
        | (intro i hi; exact ⟨_, i, hi, rfl, rfl⟩)
        | (refine ⟨bind_success_count env ((env.dominfo_max_vcpu_id + 1) % 4294967296) 0,
            by omega, fun _ x2 hx2 hx => by omega⟩)

theorem varstored_seq_next_some (st st1 : varstored_state_t)
    (h : varstored_seq_next st = some st1) :
    st.seq < VARSTORED_SEQ_INITIALIZED ∧ st1.seq = st.seq + 1 := by
  unfold varstored_seq_next at h
  by_cases h1 : st.seq < VARSTORED_SEQ_INITIALIZED
  · simp [h1] at h
    obtain ⟨-, rfl⟩ := h
    exact ⟨h1, rfl⟩
  · simp [h1] at h

/-- C10: in a run of `varstored_initialize` started in phase
`UNINITIALIZED`, a call of `varstored_seq_next` that returns has raised
`seq` by one; no assertion fails; the phases entered are `1, 2, ..., seq`
in this order (so `seq` never decreases); the function returns 0 or -1, and
0 exactly when `seq` is `INITIALIZED`; and on a failing return the phases
whose resource was acquired are exactly those up to `seq`. -/
theorem init_phase_counter (abi : XenAbi) (env : InitEnv) (domid : Nat)
    (st0 : varstored_state_t) (h0 : st0.seq = VARSTORED_SEQ_UNINITIALIZED) :
    (∀ st st1, varstored_seq_next st = some st1 →
        st.seq < VARSTORED_SEQ_INITIALIZED ∧ st1.seq = st.seq + 1)
    ∧ ( varstored_initialize abi env domid st0).out ≠ Outcome.aborted
    ∧ phases_entered ( varstored_initialize abi env domid st0).trace
      = List.range' 1 ( varstored_initialize abi env domid st0).st.seq
    ∧ (( varstored_initialize abi env domid st0).out = Outcome.returned 0
        ↔ ( varstored_initialize abi env domid st0).st.seq = VARSTORED_SEQ_INITIALIZED)
    ∧ (∀ rc, ( varstored_initialize abi env domid st0).out = Outcome.returned rc →
        rc = 0 ∨ rc = -1)
    ∧ (( varstored_initialize abi env domid st0).out = Outcome.returned (-1) →
        ∀ phase, 1 ≤ phase → phase ≤ VARSTORED_SEQ_WROTE_PID →
          (phase_acquired ( varstored_initialize abi env domid st0).st.vcpus
              (acquire_log abi ( varstored_initialize abi env domid st0).trace) phase
            ↔ phase ≤ ( varstored_initialize abi env domid st0).st.seq)) := by
  obtain ⟨h1, h2, h3, h4, -, -, -, -⟩ := init_run_counter_ok abi env domid st0 h0
  exact ⟨varstored_seq_next_some, h1, h2, h3, h4, init_run_acquired_ok abi env domid st0 h0⟩

/-- C10 (witness): the run in which every step succeeds enters the phases
1 to 12 in order. -/
theorem init_phase_counter_witness :
    varstored_state_zero.seq = VARSTORED_SEQ_UNINITIALIZED
    ∧ phases_entered ( varstored_initialize xenPublicAbi env_all_ok 7 varstored_state_zero).trace
      = List.range' 1
          ( varstored_initialize xenPublicAbi env_all_ok 7 varstored_state_zero).st.seq :=
  ⟨rfl, (init_phase_counter xenPublicAbi env_all_ok 7 varstored_state_zero rfl).2.2.1⟩

/-! ## C7, C8: signals, the main loop and `db->save()` -/

section MainLoop

attribute [local irreducible] varstored_teardown

attribute [local irreducible] varstored_initialize

end MainLoop

/-- C8 (fails on the code): after `main` has installed its handlers,
`SIGHUP` runs `varstored_sigterm`; one `SIGUSR1` installs `sigusr1_handler`
for `SIGHUP`, and a `SIGHUP` delivered afterwards runs `varstored_sigusr1`:
nothing is torn down (the phase stays `INITIALIZED`) and the process goes
on, whereas a `SIGHUP` alone tears down and leaves through `exit(0)`. -/
theorem sigusr1_replaces_sighup_handler :
    main_sigaction Signal.SIGHUP = Handler.sigterm_handler
    ∧ (deliver_signal tenv_ok Signal.SIGUSR1 proc_initialized).1.sigaction Signal.SIGHUP
      = Handler.sigusr1_handler
    ∧ (deliver_signals [(Signal.SIGUSR1, tenv_ok), (Signal.SIGHUP, tenv_ok)]
        proc_initialized).2.1
      = [Event.signal_handler Signal.SIGUSR1, Event.signal_handler Signal.SIGHUP]
    ∧ (deliver_signals [(Signal.SIGUSR1, tenv_ok), (Signal.SIGHUP, tenv_ok)]
        proc_initialized).1.varstored_state.seq = VARSTORED_SEQ_INITIALIZED
    ∧ (deliver_signals [(Signal.SIGUSR1, tenv_ok), (Signal.SIGHUP, tenv_ok)]
        proc_initialized).2.2 = none
    ∧ (deliver_signals [(Signal.SIGHUP, tenv_ok)] proc_initialized).2.2
      = some (Outcome.exited 0)
    ∧ (deliver_signals [(Signal.SIGHUP, tenv_ok)] proc_initialized).1.varstored_state.seq
      = VARSTORED_SEQ_UNINITIALIZED := by
  decide

/-! ## The domain argument, and teardown after a partial binding -/

/-- C11 (fails on the code): `main` reads the domain argument with `strtol`
in base 0, casts the result to `domid_t` and rejects it only when `strtol`
stopped before the end of the string.  So the empty string goes on as domain
0 (for every width of `domid_t`), and for a 16-bit `domid_t` "-1" goes on as
domain 65535 and "65536" as domain 0: the process runs
`varstored_initialize` to the phase `VARSTORED_SEQ_INITIALIZED` for that
domain and waits for requests.  Of the values the claim lists only trailing
characters ("12abc") end in `exit(1)` before any call is made; "7" goes on
as domain 7. -/
theorem main_accepts_empty_negative_and_oversized_domain :
    (∀ domid_bits, main_domid domid_bits (c_str "") = some 0) ∧
    main_domid 16 (c_str "-1") = some 65535 ∧
    main_domid 16 (c_str "65536") = some 0 ∧
    main_domid 16 (c_str "12abc") = none ∧
    main_domid 16 (c_str "7") = some 7 ∧
    (main_from_options xenPublicAbi 16
      { domain_str := some (c_str ""), db_set := true, check_args_ok := true }
      (menv_domain 0)).proc.varstored_state =
      { seq := VARSTORED_SEQ_INITIALIZED, domid := 0, vcpus := 2, ioservid := 3,
        ioreq_local_port := [50, 51], buf_ioreq_local_port := 60 } ∧
    (main_from_options xenPublicAbi 16
      { domain_str := some (c_str ""), db_set := true, check_args_ok := true }
      (menv_domain 0)).out = Outcome.blocked ∧
    (main_from_options xenPublicAbi 16
      { domain_str := some (c_str "-1"), db_set := true, check_args_ok := true }
      (menv_domain 65535)).proc.varstored_state =
      { seq := VARSTORED_SEQ_INITIALIZED, domid := 65535, vcpus := 2, ioservid := 3,
        ioreq_local_port := [50, 51], buf_ioreq_local_port := 60 } ∧
    (main_from_options xenPublicAbi 16
      { domain_str := some (c_str "65536"), db_set := true, check_args_ok := true }
      (menv_domain 0)).proc.varstored_state.domid = 0 ∧
    (main_from_options xenPublicAbi 16
      { domain_str := some (c_str "65536"), db_set := true, check_args_ok := true }
      (menv_domain 0)).proc.varstored_state.seq = VARSTORED_SEQ_INITIALIZED ∧
    (main_from_options xenPublicAbi 16
      { domain_str := some (c_str "12abc"), db_set := true, check_args_ok := true }
      (menv_domain 12)).out = Outcome.exited 1 ∧
    (main_from_options xenPublicAbi 16
      { domain_str := some (c_str "12abc"), db_set := true, check_args_ok := true }
      (menv_domain 12)).trace = [] := by
  refine ⟨fun domid_bits => ?_, ?_⟩
  · have h : strtol (c_str "") = (0, []) := by decide
    simp [main_domid, to_domid, h]
  · decide

/-- C12 (fails on the code): in a domain of three vCPUs where the binding
fails at vCPU 1, `varstored_initialize` returns -1 in phase
`VARSTORED_SEQ_EVTCHN_OPEN` with the table holding the bound port 50 and,
for vCPUs 1 and 2, the sentinel as an unsigned `evtchn_port_t` stores it,
4294967295.  The teardown that follows passes the test `port >= 0` for every
entry and calls `xc_evtchn_unbind` for all three, the two sentinel entries
included.  Read with a signed `evtchn_port_t` the same code unbinds the port
of vCPU 0 only. -/
theorem teardown_unbinds_sentinel_entries_after_partial_bind :
    ( varstored_initialize xenPublicAbi env_bind_fails_at_vcpu1 7 varstored_state_zero).out =
      Outcome.returned (-1) ∧
    ( varstored_initialize xenPublicAbi env_bind_fails_at_vcpu1 7 varstored_state_zero).st.seq =
      VARSTORED_SEQ_EVTCHN_OPEN ∧
    ( varstored_initialize xenPublicAbi env_bind_fails_at_vcpu1 7
      varstored_state_zero).st.ioreq_local_port = [50, 4294967295, 4294967295] ∧
    unbind_calls (varstored_teardown tenv_ok
      ( varstored_initialize xenPublicAbi env_bind_fails_at_vcpu1 7 varstored_state_zero).st).2 =
      [(some 0, 50), (some 1, 4294967295), (some 2, 4294967295)] ∧
    unbind_calls (varstored_teardown tenv_ok
      ( varstored_initialize xenSignedPortAbi env_bind_fails_at_vcpu1 7
        varstored_state_zero).st).2 = [(some 0, 50)] := by
  decide
/-! ## Teardown from every phase, and the gate of request processing -/

theorem teardown_eq_blocks (env : TeardownEnv) (st : varstored_state_t) :
    (teardown_blocks env).foldl (fun p b => b p) (st, []) = varstored_teardown env st := by
  simp only [teardown_blocks, varstored_teardown, List.foldl_cons, List.foldl_nil]

theorem teardown_seq_zero (env : TeardownEnv) (st : varstored_state_t) :
    (varstored_teardown env st).1.seq = VARSTORED_SEQ_UNINITIALIZED := by
  obtain ⟨seq, domid, vcpus, ioservid, ports, buf⟩ := st
  by_cases h : seq ≤ 12
  · interval_cases seq <;> rfl
  · have h1 : ¬ seq = 12 := by omega
    have h2 : 11 ≤ seq := by omega
    simp [varstored_teardown, teardown_block, VARSTORED_SEQ_INITIALIZED, VARSTORED_SEQ_WROTE_PID,
      VARSTORED_SEQ_PORT_INITIALIZED, VARSTORED_SEQ_PORTS_BOUND, VARSTORED_SEQ_EVTCHN_OPEN,
      VARSTORED_SEQ_PORT_ARRAY_ALLOCATED, VARSTORED_SEQ_SERVER_ENABLED,
      VARSTORED_SEQ_BUFFERED_IOPAGE_MAPPED, VARSTORED_SEQ_SHARED_IOPAGE_MAPPED,
      VARSTORED_SEQ_SERVER_REGISTERED, VARSTORED_SEQ_INTERFACE_OPEN,
      VARSTORED_SEQ_UNINITIALIZED, h1, h2]

theorem teardown_history_chain (env : TeardownEnv) (st : varstored_state_t) :
    List.Chain' (fun a b => b ≤ a) (teardown_seq_history env st) := by
  obtain ⟨seq, domid, vcpus, ioservid, ports, buf⟩ := st
  by_cases h : seq ≤ 12
  · interval_cases seq <;>
    simp [teardown_seq_history, teardown_blocks, teardown_block, VARSTORED_SEQ_INITIALIZED,
      VARSTORED_SEQ_WROTE_PID,
      VARSTORED_SEQ_PORT_INITIALIZED, VARSTORED_SEQ_PORTS_BOUND, VARSTORED_SEQ_EVTCHN_OPEN,
      VARSTORED_SEQ_PORT_ARRAY_ALLOCATED, VARSTORED_SEQ_SERVER_ENABLED,
      VARSTORED_SEQ_BUFFERED_IOPAGE_MAPPED, VARSTORED_SEQ_SHARED_IOPAGE_MAPPED,
      VARSTORED_SEQ_SERVER_REGISTERED, VARSTORED_SEQ_INTERFACE_OPEN,
      VARSTORED_SEQ_UNINITIALIZED]
  · have h1 : ¬ seq = 12 := by omega
    have h2 : 11 ≤ seq := by omega
    simp [teardown_seq_history, teardown_blocks, teardown_block, VARSTORED_SEQ_INITIALIZED,
      VARSTORED_SEQ_WROTE_PID,
      VARSTORED_SEQ_PORT_INITIALIZED, VARSTORED_SEQ_PORTS_BOUND, VARSTORED_SEQ_EVTCHN_OPEN,
      VARSTORED_SEQ_PORT_ARRAY_ALLOCATED, VARSTORED_SEQ_SERVER_ENABLED,
      VARSTORED_SEQ_BUFFERED_IOPAGE_MAPPED, VARSTORED_SEQ_SHARED_IOPAGE_MAPPED,
      VARSTORED_SEQ_SERVER_REGISTERED, VARSTORED_SEQ_INTERFACE_OPEN,
      VARSTORED_SEQ_UNINITIALIZED, h1, h2]
    omega

theorem teardown_at_bottom (env : TeardownEnv) (st : varstored_state_t)
    (h : st.seq = VARSTORED_SEQ_UNINITIALIZED) : varstored_teardown env st = (st, []) := by
  obtain ⟨seq, domid, vcpus, ioservid, ports, buf⟩ := st
  simp only [VARSTORED_SEQ_UNINITIALIZED] at h
  subst h
  rfl

theorem teardown_history_ends (env : TeardownEnv) (st : varstored_state_t) :
    (teardown_seq_history env st).getLast? = some (varstored_teardown env st).1.seq ∧
    (teardown_seq_history env st).head? = some st.seq ∧
    (teardown_seq_history env st).length = 13 := by
  refine ⟨?_, ?_, ?_⟩
  · rw [← teardown_eq_blocks]
    simp only [teardown_seq_history, teardown_blocks, List.scanl, List.map_cons, List.map_nil,
      List.foldl_cons, List.foldl_nil]
    rfl
  · rfl
  · rfl

/-- C13: from whatever value of `seq` it starts (the 13 phases included),
`varstored_teardown` is the run of its twelve blocks in source order, `seq`
never goes up from one block to the next (the history starts at the entry
value, has one entry per block and is non-increasing), the final `seq` is
`VARSTORED_SEQ_UNINITIALIZED`, and a second `varstored_teardown` on the
state it leaves makes no call at all and returns that state unchanged. -/
theorem teardown_reaches_bottom_and_is_idempotent (env env2 : TeardownEnv)
    (st : varstored_state_t) :
    (teardown_blocks env).foldl (fun p b => b p) (st, []) = varstored_teardown env st ∧
    (teardown_seq_history env st).head? = some st.seq ∧
    (teardown_seq_history env st).length = 13 ∧
    (teardown_seq_history env st).getLast? = some (varstored_teardown env st).1.seq ∧
    List.Chain' (fun a b => b ≤ a) (teardown_seq_history env st) ∧
    (varstored_teardown env st).1.seq = VARSTORED_SEQ_UNINITIALIZED ∧
    varstored_teardown env2 (varstored_teardown env st).1 = ((varstored_teardown env st).1, []) :=
  ⟨teardown_eq_blocks env st, (teardown_history_ends env st).2.1,
    (teardown_history_ends env st).2.2, (teardown_history_ends env st).1,
    teardown_history_chain env st, teardown_seq_zero env st,
    teardown_at_bottom env2 _ (teardown_seq_zero env st)⟩

/-- C14: while `seq` is not `VARSTORED_SEQ_INITIALIZED`, each of
`varstored_poll_iopages`, `varstored_poll_iopage` and
`varstored_poll_buffered_iopage` returns at once: its trace is empty (no
read of a slot or of the ring pointers, no request handled, no write of a
slot state or of `read_pointer`, no `xc_evtchn_pending`, unmask or notify)
and the shared pages are the ones it was given.  The state
`varstored_teardown` leaves is always such a state. -/
theorem polls_gated_on_phase (abi : XenAbi) (st : varstored_state_t)
    (h : st.seq ≠ VARSTORED_SEQ_INITIALIZED) (pending_rc : Int) (fuel passes : Nat)
    (pages : SharedPages) (i : Nat) (tenv : TeardownEnv) (st0 : varstored_state_t) :
    varstored_poll_iopages abi st pending_rc fuel passes pages =
      { pages := pages, trace := [], out := Outcome.returned 0 } ∧
    varstored_poll_iopage abi st pages.iopage i =
      { iopage := pages.iopage, trace := [], out := Outcome.returned 0 } ∧
    varstored_poll_buffered_iopage abi st fuel passes pages.buffered =
      { page := pages.buffered, handled := [], trace := [], out := Outcome.returned 0 } ∧
    (varstored_teardown tenv st0).1.seq ≠ VARSTORED_SEQ_INITIALIZED := by
  refine ⟨?_, ?_, ?_, ?_⟩
  · simp only [varstored_poll_iopages, if_pos h]
  · simp only [varstored_poll_iopage, if_pos h]
  · simp only [varstored_poll_buffered_iopage, if_pos h]
  · rw [teardown_seq_zero]; decide

theorem polls_gated_on_phase_witness :
    (varstored_teardown tenv_ok st_initialized).1.seq ≠ VARSTORED_SEQ_INITIALIZED ∧
    varstored_poll_iopages xenPublicAbi (varstored_teardown tenv_ok st_initialized).1 60 8 2
        { iopage := fun _ => ioreq_pio_write, buffered := page_half_pair } =
      { pages := { iopage := fun _ => ioreq_pio_write, buffered := page_half_pair },
        trace := [], out := Outcome.returned 0 } :=
  ⟨by decide,
   (polls_gated_on_phase xenPublicAbi (varstored_teardown tenv_ok st_initialized).1 (by decide)
      60 8 2 { iopage := fun _ => ioreq_pio_write, buffered := page_half_pair } 0 tenv_ok
      st_initialized).1⟩

theorem teardown_history_from_initialized :
    teardown_seq_history tenv_ok st_initialized = [12, 11, 10, 8, 8, 7, 6, 5, 4, 3, 2, 1, 0] := by
  decide

/-! ## Shutdown by signal -/

section Shutdown

attribute [local irreducible] varstored_teardown

attribute [local irreducible] varstored_initialize

end Shutdown

/-- The runs of `main` that initialize and then get one signal at the first
`poll`, or fail an assertion there: `SIGHUP`, `SIGABRT` and the assertion of
`handle_pio` end with exit code 0 after the teardown of the handler, without
a save; `SIGTERM` tears down, saves and returns 0 or 1 as save answered. -/
theorem shutdown_by_each_signal :
    (main_run xenPublicAbi (menv_signals [Signal.SIGHUP] true) 7).out = Outcome.exited 0
    ∧ (main_run xenPublicAbi (menv_signals [Signal.SIGHUP] true) 7).trace.drop 35 =
        Event.signal_handler Signal.SIGHUP :: (varstored_teardown tenv_ok st_initialized).2
    ∧ (main_run xenPublicAbi (menv_signals [Signal.SIGABRT] true) 7).out = Outcome.exited 0
    ∧ (main_run xenPublicAbi (menv_signals [Signal.SIGABRT] true) 7).trace.drop 35 =
        Event.signal_handler Signal.SIGABRT :: (varstored_teardown tenv_ok st_initialized).2
    ∧ (main_run xenPublicAbi menv_assert_fails 7).out = Outcome.exited 0
    ∧ (main_run xenPublicAbi menv_assert_fails 7).trace.drop 35 =
        [Event.xc_evtchn_pending 50, Event.xc_evtchn_unmask 50, Event.read_ioreq_state 0,
          Event.write_ioreq_state 0 2, Event.signal_handler Signal.SIGABRT] ++
          (varstored_teardown tenv_ok st_initialized).2
    ∧ saves (main_run xenPublicAbi menv_assert_fails 7).trace = []
    ∧ (main_run xenPublicAbi menv_assert_fails 7).proc.varstored_state.seq
        = VARSTORED_SEQ_UNINITIALIZED
    ∧ (varstored_teardown tenv_ok st_initialized).2 =
        [Event.xs_open true, Event.xs_rm_pid, Event.xs_close, Event.io_port_deregister,
          Event.xc_evtchn_unbind none 60, Event.xc_evtchn_unbind (some 0) 50,
          Event.xc_evtchn_unbind (some 1) 51, Event.xc_evtchn_close, Event.free_ports,
          Event.server_disable, Event.munmap_buffered_iopage, Event.munmap_iopage,
          Event.xc_hvm_destroy_ioreq_server, Event.xc_interface_close]
    ∧ (main_run xenPublicAbi (menv_signals [Signal.SIGTERM] true) 7).out
        = Outcome.returned 0
    ∧ saves (main_run xenPublicAbi (menv_signals [Signal.SIGTERM] true) 7).trace = [true]
    ∧ (main_run xenPublicAbi (menv_signals [Signal.SIGTERM] false) 7).out
        = Outcome.returned 1
    ∧ saves (main_run xenPublicAbi (menv_signals [Signal.SIGTERM] false) 7).trace
        = [false] := by
  decide

end Varstored
